import Mathlib

/-!
# Verification of the AutoSongTagger metadata engine

A shallow embedding of `src/auto_song_tagger.py`: the JSON-like values the
provider adapters consume, the adapter/aggregator pipeline, the year-based
sort of candidate records, and the MP3 (frame-based) / Ogg Opus (comment-map)
tag writing and reading layer.  Network responses are modelled as oracle
inputs; exceptions are modelled with `Except`.
-/

set_option maxRecDepth 10000

namespace AST

/-- A Python/JSON-like value, as produced by `response.json()` and by the
`musicbrainzngs` client, and as stored in the metadata-record dictionaries
that the adapters build. -/
inductive PyVal where
  | none : PyVal
  | bool (b : Bool) : PyVal
  | int (n : Int) : PyVal
  | str (s : String) : PyVal
  | list (xs : List PyVal) : PyVal
  | dict (kvs : List (String × PyVal)) : PyVal

mutual

/-- Structural equality test on `PyVal` (models Python `==` on JSON data;
Python's numeric cross-type equalities such as `True == 1` are not
modelled). -/
def pyBeq : PyVal → PyVal → Bool
  | .none, .none => true
  | .bool a, .bool b => a == b
  | .int a, .int b => a == b
  | .str a, .str b => a == b
  | .list xs, .list ys => pyBeqList xs ys
  | .dict xs, .dict ys => pyBeqKVs xs ys
  | _, _ => false

def pyBeqList : List PyVal → List PyVal → Bool
  | [], [] => true
  | x :: xs, y :: ys => pyBeq x y && pyBeqList xs ys
  | _, _ => false

def pyBeqKVs : List (String × PyVal) → List (String × PyVal) → Bool
  | [], [] => true
  | (k, v) :: xs, (k', v') :: ys => k == k' && pyBeq v v' && pyBeqKVs xs ys
  | _, _ => false

end

instance : BEq PyVal := ⟨pyBeq⟩

/-- The Python exceptions that the embedded code can raise.  `transportError`
stands for any exception raised by `requests.get` itself. -/
inductive PErr where
  | keyError
  | typeError
  | attributeError
  | indexError
  | valueError
  | transportError
  deriving DecidableEq, Repr

/-- Python truthiness (`if v:`) for the modelled value types. -/
def pyTruthy : PyVal → Bool
  | .none => false
  | .bool b => b
  | .int n => n != 0
  | .str s => s != ""
  | .list xs => !xs.isEmpty
  | .dict kvs => !kvs.isEmpty

/-- `d.get(k, default)`: `AttributeError` when the receiver is not a dict. -/
def pyGetD (v : PyVal) (k : String) (d : PyVal) : Except PErr PyVal :=
  match v with
  | .dict kvs => .ok ((kvs.lookup k).getD d)
  | _ => .error .attributeError

/-- `d.get(k)` (default `None`). -/
def pyGetOpt (v : PyVal) (k : String) : Except PErr PyVal :=
  pyGetD v k .none

/-- `d[k]` with a string key: `KeyError` when missing, `TypeError` when the
receiver is a list or string (string indices must be integers). -/
def pyIndexKey (v : PyVal) (k : String) : Except PErr PyVal :=
  match v with
  | .dict kvs =>
    match kvs.lookup k with
    | some x => .ok x
    | Option.none => .error .keyError
  | _ => .error .typeError

/-- `v[i]` with a non-negative integer index. A dict raises `KeyError`
(integer keys never occur in the string-keyed dicts modelled here). -/
def pyIndexNat (v : PyVal) (i : Nat) : Except PErr PyVal :=
  match v with
  | .list xs =>
    match xs.get? i with
    | some x => .ok x
    | Option.none => .error .indexError
  | .str s =>
    match s.data.get? i with
    | some c => .ok (.str (String.mk [c]))
    | Option.none => .error .indexError
  | .dict _ => .error .keyError
  | _ => .error .typeError

/-- `"k" in v`: key membership for dicts, element membership for lists,
substring test for strings, `TypeError` otherwise. -/
def pyInKey (k : String) (v : PyVal) : Except PErr Bool :=
  match v with
  | .dict kvs => .ok (kvs.any (fun p => p.1 == k))
  | .list xs => .ok (xs.contains (.str k))
  | .str s =>
    .ok ((List.range (s.data.length + 1)).any
      (fun i => k.data.isPrefixOf (s.data.drop i)))
  | _ => .error .typeError

/-- Iterating a value (`for x in v`): lists yield their elements, strings
their characters, dicts their keys; other types raise `TypeError`. -/
def pyIter (v : PyVal) : Except PErr (List PyVal) :=
  match v with
  | .list xs => .ok xs
  | .str s => .ok (s.data.map (fun c => .str (String.mk [c])))
  | .dict kvs => .ok (kvs.map (fun p => .str p.1))
  | _ => .error .typeError

/-- `len(v)` for strings (character count), lists and dicts. -/
def pyLen (v : PyVal) : Except PErr Nat :=
  match v with
  | .str s => .ok s.data.length
  | .list xs => .ok xs.length
  | .dict kvs => .ok kvs.length
  | _ => .error .typeError

/-- Python slice `s[:4]` (strings and lists). -/
def pySlice4 (v : PyVal) : Except PErr PyVal :=
  match v with
  | .str s => .ok (.str (String.mk (s.data.take 4)))
  | .list xs => .ok (.list (xs.take 4))
  | _ => .error .typeError

/-- `s[:n]` on a Lean-level string (Python string slicing by characters). -/
def strTake (s : String) (n : Nat) : String :=
  String.mk (s.data.take n)

/-- `s.isdigit()` restricted to ASCII digits (non-ASCII digit characters are
not modelled). -/
def pyStrIsdigit (s : String) : Bool :=
  s != "" && s.data.all Char.isDigit

/-- `.isdigit()` on a value: `AttributeError` for non-strings. -/
def pyIsdigitV (v : PyVal) : Except PErr Bool :=
  match v with
  | .str s => .ok (pyStrIsdigit s)
  | _ => .error .attributeError

/-- `s.strip()` (surrounding ASCII whitespace). -/
def pyStripS (s : String) : String :=
  String.mk (((s.data.dropWhile Char.isWhitespace).reverse.dropWhile
      Char.isWhitespace).reverse)

/-- Digit characters to the natural number they denote. -/
def digitsToNat (cs : List Char) : Nat :=
  cs.foldl (fun a c => a * 10 + (c.toNat - '0'.toNat)) 0

/-- `int(s)`: strip surrounding whitespace, allow one sign, then require a
non-empty run of ASCII digits; otherwise `ValueError`. -/
def pyIntParse (s : String) : Except PErr Int :=
  let t := (pyStripS s).data
  let signed : Int × List Char :=
    match t with
    | [] => (1, [])
    | c :: r =>
      if c = '-' then (-1, r) else if c = '+' then (1, r) else (1, c :: r)
  if signed.2 ≠ [] ∧ signed.2.all Char.isDigit then
    .ok (signed.1 * Int.ofNat (digitsToNat signed.2))
  else
    .error .valueError

/-- `int(v)`: strings are parsed, ints pass through, bools coerce, other
types raise `TypeError`. -/
def pyIntV (v : PyVal) : Except PErr Int :=
  match v with
  | .str s => pyIntParse s
  | .int n => .ok n
  | .bool b => .ok (if b then 1 else 0)
  | _ => .error .typeError

mutual

/-- `str(v)` for the modelled types (containers fall back to `repr`). -/
def pyStr : PyVal → String
  | .str s => s
  | .int n => toString n
  | .bool true => "True"
  | .bool false => "False"
  | .none => "None"
  | .list xs => "[" ++ pyReprList xs ++ "]"
  | .dict kvs => "\x7b" ++ pyReprKVs kvs ++ "\x7d"

/-- `repr(v)` (string escaping inside `repr` is not modelled). -/
def pyRepr : PyVal → String
  | .str s => "'" ++ s ++ "'"
  | .int n => toString n
  | .bool true => "True"
  | .bool false => "False"
  | .none => "None"
  | .list xs => "[" ++ pyReprList xs ++ "]"
  | .dict kvs => "\x7b" ++ pyReprKVs kvs ++ "\x7d"

def pyReprList : List PyVal → String
  | [] => ""
  | [x] => pyRepr x
  | x :: xs => pyRepr x ++ ", " ++ pyReprList xs

def pyReprKVs : List (String × PyVal) → String
  | [] => ""
  | [(k, v)] => "'" ++ k ++ "': " ++ pyRepr v
  | (k, v) :: kvs => "'" ++ k ++ "': " ++ pyRepr v ++ ", " ++ pyReprKVs kvs

end

/-- `", ".join(vs)`: `TypeError` unless every element is a string. -/
def pyJoin (sep : String) (vs : List PyVal) : Except PErr String :=
  match vs with
  | [] => .ok ""
  | [v] =>
    match v with
    | .str s => .ok s
    | _ => .error .typeError
  | v :: rest => do
    match v with
    | .str s =>
      let r ← pyJoin sep rest
      .ok (s ++ sep ++ r)
    | _ => .error .typeError

/-- Python `a or b` (value-returning truthiness disjunction). -/
def pyOr (a b : PyVal) : PyVal :=
  if pyTruthy a then a else b

/-- In-place dict assignment `d[k] = v` (updates the first binding for the
key in place, appends otherwise; insertion order is preserved as in Python
dicts). -/
def kvSet : List (String × PyVal) → String → PyVal → List (String × PyVal)
  | [], k, v => [(k, v)]
  | (k', v') :: rest, k, v =>
    if k' == k then (k, v) :: rest else (k', v') :: kvSet rest k v

/-- `d[k] = v` on a value: `TypeError` when the receiver is not a dict. -/
def pySetKey (v : PyVal) (k : String) (x : PyVal) : Except PErr PyVal :=
  match v with
  | .dict kvs => .ok (.dict (kvSet kvs k x))
  | _ => .error .typeError

/-- Look up a key in a record dict (proof-side helper). -/
def pyLookup (v : PyVal) (k : String) : Option PyVal :=
  match v with
  | .dict kvs => kvs.lookup k
  | _ => Option.none

/-- A list comprehension `[f x for x in l]` over raising code: elements are
processed left to right, the first exception aborts. -/
def exMapM (f : α → Except PErr β) : List α → Except PErr (List β)
  | [] => .ok []
  | x :: xs => do
    let y ← f x
    let rest ← exMapM f xs
    .ok (y :: rest)

/-- A filtering comprehension `[x for x in l if f x]` over a raising
condition. -/
def exFilterM (f : α → Except PErr Bool) : List α → Except PErr (List α)
  | [] => .ok []
  | x :: xs => do
    let b ← f x
    let rest ← exFilterM f xs
    .ok (if b then x :: rest else rest)

/-! ## Network oracles

Each HTTP call made by the source is modelled by an oracle input.  The
`Except Unit` layer of an oracle is the exception raised by the library call
itself (`requests.get` transport errors, `response.json()` parse errors,
`musicbrainzngs.WebServiceError`). -/

/-- A `requests` response: its status code and what `response.json()`
yields (`.error` = `ValueError` from a malformed body). -/
structure HttpResp where
  status : Int
  jsonBody : Except Unit PyVal

/-- Responses of the `musicbrainzngs` client for one `(artist, title)` query;
`.error` is a `musicbrainzngs.WebServiceError`. -/
structure MBEnv where
  searchRecordings : Except Unit PyVal
  getRecordingById : PyVal → Except Unit PyVal
  getReleaseById : PyVal → Except Unit PyVal

/-- All provider responses one `MetadataFetcherThread.run` can consume;
`.error` on an `HttpResp` oracle is a transport exception from
`requests.get`. -/
structure FetchEnv where
  mb : MBEnv
  audiodbResp : Except Unit HttpResp
  deezerResp : Except Unit HttpResp
  lrcatResp : Except Unit HttpResp
  coverResp : PyVal → Except Unit HttpResp

/-- The per-request release-detail cache (`release_cache`), an insertion-
ordered map keyed by the release id value. -/
abbrev Cache := List (PyVal × PyVal)

/-! ## MusicBrainz helper functions (`_get_track_number` … `fetch_song_metadata`) -/

/-- Inner loop of `_get_track_number`: scan a `track-list` for the entry
whose recording id equals `recording_id`, returning its `number`. -/
def gtnTracks (recordingId : PyVal) : List PyVal → Except PErr (Option PyVal)
  | [] => .ok Option.none
  | t :: ts => do
    let recv ← pyGetD t "recording" (.dict [])
    let idv ← pyGetD recv "id" .none
    if pyBeq idv recordingId then
      let n ← pyGetD t "number" (.str "")
      .ok (some n)
    else
      gtnTracks recordingId ts

/-- Outer loop of `_get_track_number`: scan each medium's `track-list`. -/
def gtnMedia (recordingId : PyVal) : List PyVal → Except PErr (Option PyVal)
  | [] => .ok Option.none
  | m :: ms => do
    let ht ← pyInKey "track-list" m
    if ht then
      let ts ← pyIndexKey m "track-list" >>= pyIter
      match (← gtnTracks recordingId ts) with
      | some n => .ok (some n)
      | Option.none => gtnMedia recordingId ms
    else
      gtnMedia recordingId ms

/-- `_get_track_number(release, recording_id)`: find the track number for a
recording within a release, `""` if absent. -/
def getTrackNumber (release recordingId : PyVal) : Except PErr PyVal := do
  let has ← pyInKey "medium-list" release
  if has then
    let media ← pyIndexKey release "medium-list" >>= pyIter
    match (← gtnMedia recordingId media) with
    | some n => .ok n
    | Option.none => .ok (.str "")
  else
    .ok (.str "")

/-- `_get_genre(recording)`: comma-join the names of the recording's tag
list (a tag entry without a `name` key raises `KeyError`). -/
def getGenre (recording : PyVal) : Except PErr PyVal := do
  let has ← pyInKey "tag-list" recording
  if has then
    let tl ← pyIndexKey recording "tag-list"
    if pyTruthy tl then
      let tags ← pyIter tl
      let names ← exMapM (fun t => pyIndexKey t "name") tags
      let s ← pyJoin ", " names
      .ok (.str s)
    else
      .ok (.str "")
  else
    .ok (.str "")

/-- `_choose_release(release_list)`: the first release carrying a `date`
key, else the first release (`IndexError` on an empty list). -/
def chooseRelease (releaseList : PyVal) : Except PErr PyVal := do
  let rs ← pyIter releaseList
  let dated ← exFilterM (fun r => pyInKey "date" r) rs
  match dated with
  | d :: _ => .ok d
  | [] => pyIndexNat releaseList 0

/-- `_fetch_and_cache_release_details(release_id, release_cache)`: cache
lookup, then a `get_release_by_id` call whose `WebServiceError` is caught
and mapped to `None` (unhashable cache keys are not modelled). -/
def fetchAndCacheReleaseDetails (env : MBEnv) (releaseId : PyVal)
    (cache : Cache) : Option PyVal × Cache :=
  match List.find? (fun p => pyBeq p.1 releaseId) cache with
  | some p => (some p.2, cache)
  | Option.none =>
    match env.getReleaseById releaseId with
    | .ok d => (some d, cache ++ [(releaseId, d)])
    | .error _ => (Option.none, cache)

/-- The year block of `_get_release_info`: `date_str[:4]` when the date has
at least 4 characters and they are all digits, else `""`. -/
def griYear (dateStr : PyVal) : Except PErr PyVal := do
  let n ← pyLen dateStr
  if n ≥ 4 then do
    let d4 ← pySlice4 dateStr
    let isd ← pyIsdigitV d4
    if isd then pure d4 else pure (.str "")
  else
    pure (.str "")

/-- The track block of `_get_release_info`: fetch (or read from the cache)
the release details and look the recording up in its track lists. -/
def griTrack (env : MBEnv) (recording releaseId : PyVal) (cache : Cache) :
    Except PErr (PyVal × Cache) :=
  match fetchAndCacheReleaseDetails env releaseId cache with
  | (some details, cache') =>
    if pyTruthy details then do
      let hasRel ← pyInKey "release" details
      if hasRel then do
        let relv ← pyIndexKey details "release"
        let recId ← pyIndexKey recording "id"
        let track ← getTrackNumber relv recId
        .ok (track, cache')
      else
        .ok (.str "", cache')
    else
      .ok (.str "", cache')
  | (Option.none, cache') => .ok (.str "", cache')

/-- `_get_release_info(recording, release_cache)`: extract album, year and
track from a recording's release list, threading the cache. -/
def getReleaseInfo (env : MBEnv) (recording : PyVal) (cache : Cache) :
    Except PErr ((PyVal × PyVal × PyVal) × Cache) := do
  let hasRL ← pyInKey "release-list" recording
  if hasRL then do
    let rl ← pyIndexKey recording "release-list"
    if pyTruthy rl then do
      let chosen ← chooseRelease rl
      let album ← pyGetD chosen "title" (.str "")
      let dateStr ← pyGetD chosen "date" (.str "")
      let year ← griYear dateStr
      let releaseId ← pyGetOpt chosen "id"
      if pyTruthy releaseId then do
        let (track, cache') ← griTrack env recording releaseId cache
        .ok ((album, year, track), cache')
      else
        .ok ((album, year, .str ""), cache)
    else
      .ok ((.str "", .str "", .str ""), cache)
  else
    .ok ((.str "", .str "", .str ""), cache)

/-- The condition of `_process_recording`'s re-fetch:
`"tag-list" not in recording or not recording["tag-list"]`. -/
def prNeedFetch (recording : PyVal) : Except PErr Bool := do
  let hasTL ← pyInKey "tag-list" recording
  if hasTL then do
    let tl ← pyIndexKey recording "tag-list"
    pure (!pyTruthy tl)
  else
    pure true

/-- The tags-by-id enrichment of `_process_recording`: when the search
result carried no tags, re-fetch the recording with tags and use the
enriched object wholesale (`WebServiceError` keeps the original). -/
def prRefetch (env : MBEnv) (recording : PyVal) : Except PErr PyVal := do
  let needFetch ← prNeedFetch recording
  if needFetch then do
    let rid ← pyGetOpt recording "id"
    if pyTruthy rid then
      match env.getRecordingById rid with
      | .ok full => do
        let hasRec ← pyInKey "recording" full
        if hasRec then pyIndexKey full "recording" else pure recording
      | .error _ => pure recording
    else
      pure recording
  else
    pure recording

/-- The `release_id` block of `_process_recording` (note it consults the
possibly re-fetched recording). -/
def prReleaseId (recording : PyVal) : Except PErr PyVal := do
  let hasRL ← pyInKey "release-list" recording
  if hasRL then do
    let rl ← pyIndexKey recording "release-list"
    if pyTruthy rl then do
      let chosen ← chooseRelease rl
      pyGetD chosen "id" (.str "")
    else
      pure (.str "")
  else
    pure (.str "")

/-- `_process_recording(recording, artist, release_cache)`: build one
MusicBrainz metadata record (with the tags-by-id re-fetch when the search
result carries no tag list). -/
def processRecording (env : MBEnv) (artist : String) (recording : PyVal)
    (cache : Cache) : Except PErr (PyVal × Cache) := do
  let ((album, year, track), cache) ← getReleaseInfo env recording cache
  let recording ← prRefetch env recording
  let genre ← getGenre recording
  let releaseId ← prReleaseId recording
  let title ← pyGetD recording "title" (.str "")
  .ok (.dict [("title", title), ("artist", .str artist), ("album", album),
    ("year", year), ("track", track), ("genre", genre),
    ("source", .str "MusicBrainz"), ("release_id", releaseId),
    ("cover_url", .none)], cache)

/-- The list comprehension of `fetch_song_metadata`: process the recordings
left to right, threading the shared `release_cache`. -/
def processAll (env : MBEnv) (artist : String) :
    List PyVal → Cache → Except PErr (List PyVal × Cache)
  | [], cache => .ok ([], cache)
  | r :: rs, cache => do
    let (x, cache') ← processRecording env artist r cache
    let (xs, cache'') ← processAll env artist rs cache'
    .ok (x :: xs, cache'')

/-- `fetch_song_metadata(artist, title)`: the MusicBrainz search, catching
only `WebServiceError`; the recordings are processed with a shared
per-request release cache. -/
def fetchSongMetadata (env : MBEnv) (artist title : String) :
    Except PErr (List PyVal) := do
  match env.searchRecordings with
  | .error _ => .ok []
  | .ok result => do
    let rl ← pyGetOpt result "recording-list"
    if pyTruthy rl then do
      let recs ← pyIndexKey result "recording-list" >>= pyIter
      let out ← processAll env artist recs []
      .ok out.1
    else
      .ok []

/-! ## Public-API adapters (`PublicMusicAPIs`) -/

/-- Lift a `requests.get` oracle result into the adapter body. -/
def liftResp (r : Except Unit HttpResp) : Except PErr HttpResp :=
  match r with
  | .ok resp => .ok resp
  | .error _ => .error .transportError

/-- `response.json()`. -/
def liftJson (r : Except Unit PyVal) : Except PErr PyVal :=
  match r with
  | .ok v => .ok v
  | .error _ => .error .valueError

/-- Body of `PublicMusicAPIs.search_audiodb` (everything inside the `try`). -/
def searchAudiodbE (artist title : String) (resp : Except Unit HttpResp) :
    Except PErr (List PyVal) := do
  let r ← liftResp resp
  if r.status == 200 then do
    let data ← liftJson r.jsonBody
    let tracks ← pyGetD data "track" (.list [])
    let ts ← pyIter tracks
    let results ← exMapM (fun track => do
      let releaseDate ← pyGetD track "intYearReleased" (.str "")
      let year :=
        if pyTruthy releaseDate ∧ (pyStr releaseDate).data.length ≥ 4 then
          strTake (pyStr releaseDate) 4
        else ""
      let titleV ← pyGetD track "strTrack" (.str "")
      let artistV ← pyGetD track "strArtist" (.str "")
      let albumV ← pyGetD track "strAlbum" (.str "")
      let trackV ← pyGetD track "strTrackNumber" (.str "")
      let genreV ← pyGetD track "strGenre" (.str "")
      let thumbT ← pyGetD track "strTrackThumb" (.str "")
      let thumbA ← pyGetD track "strAlbumThumb" (.str "")
      pure (PyVal.dict [("title", titleV), ("artist", artistV),
        ("album", albumV), ("year", .str year), ("track", trackV),
        ("genre", genreV), ("cover_url", pyOr thumbT thumbA),
        ("source", .str "TheAudioDB")])) ts
    .ok results
  else
    .ok []

/-- `search_audiodb(artist, title)`: the `try/except Exception` wrapper maps
any raised exception to `[]`. -/
def searchAudiodb (artist title : String)
    (resp : Except Unit HttpResp) : List PyVal :=
  match searchAudiodbE artist title resp with
  | .ok l => l
  | .error _ => []

/-- Body of `PublicMusicAPIs.search_lrcat` (everything inside the `try`). -/
def searchLrcatE (artist title : String) (resp : Except Unit HttpResp) :
    Except PErr (List PyVal) := do
  let r ← liftResp resp
  if r.status == 200 then
    .ok [PyVal.dict [("title", .str title), ("artist", .str artist),
      ("album", .str ""), ("year", .str ""), ("track", .str ""),
      ("genre", .str ""), ("source", .str "Lyrics.ovh"),
      ("has_lyrics", .bool true)]]
  else
    .ok []

/-- `search_lrcat(artist, title)` with its `try/except Exception` wrapper. -/
def searchLrcat (artist title : String)
    (resp : Except Unit HttpResp) : List PyVal :=
  match searchLrcatE artist title resp with
  | .ok l => l
  | .error _ => []

/-- The year block of `search_deezer`: `release_date[:4]` when the field is
truthy and at least 4 long, else `""` (note `len` raises on non-sized
values, caught by the adapter wrapper). -/
def deezerYear (releaseDate : PyVal) : Except PErr PyVal := do
  if pyTruthy releaseDate then do
    let n ← pyLen releaseDate
    if n ≥ 4 then pySlice4 releaseDate else pure (.str "")
  else
    pure (PyVal.str "")

/-- Body of `PublicMusicAPIs.search_deezer` (everything inside the `try`). -/
def searchDeezerE (artist title : String) (resp : Except Unit HttpResp) :
    Except PErr (List PyVal) := do
  let r ← liftResp resp
  if r.status == 200 then do
    let data ← liftJson r.jsonBody
    let tracks ← pyGetD data "data" (.list []) >>= pyIter
    let results ← exMapM (fun track => do
      let album ← pyGetD track "album" (.dict [])
      let releaseDate ← pyGetD track "release_date" (.str "")
      let year ← deezerYear releaseDate
      let titleV ← pyGetD track "title" (.str "")
      let artistObj ← pyGetD track "artist" (.dict [])
      let artistV ← pyGetD artistObj "name" (.str "")
      let albumV ← pyGetD album "title" (.str "")
      let posV ← pyGetD track "track_position" (.str "")
      let coverM ← pyGetD album "cover_medium" (.str "")
      let coverD ← pyGetD album "cover" (.str "")
      pure (PyVal.dict [("title", titleV), ("artist", artistV),
        ("album", albumV), ("year", year), ("track", .str (pyStr posV)),
        ("genre", .str ""), ("cover_url", pyOr coverM coverD),
        ("source", .str "Deezer")])) tracks
    .ok results
  else
    .ok []

/-- `search_deezer(artist, title)` with its `try/except Exception` wrapper. -/
def searchDeezer (artist title : String)
    (resp : Except Unit HttpResp) : List PyVal :=
  match searchDeezerE artist title resp with
  | .ok l => l
  | .error _ => []

/-- Body of `PublicMusicAPIs.search_musicbrainz_cover_art` (inside the
`try`): prefer the first image flagged `front`, else the first image. -/
def searchCoverArtE (env : FetchEnv) (releaseId : PyVal) :
    Except PErr PyVal := do
  let r ← liftResp (env.coverResp releaseId)
  if r.status == 200 then do
    let data ← liftJson r.jsonBody
    let images ← pyGetD data "images" (.list [])
    if pyTruthy images then do
      let imgs ← pyIter images
      let fronts ← exFilterM (fun img => do
        let f ← pyGetD img "front" (.bool false)
        pure (pyTruthy f)) imgs
      match fronts with
      | f :: _ => pyGetOpt f "image"
      | [] => do
        let first ← pyIndexNat images 0
        pyGetOpt first "image"
    else
      .ok .none
  else
    .ok .none

/-- `search_musicbrainz_cover_art(release_id)` with its
`try/except Exception` wrapper (exceptions yield `None`). -/
def searchCoverArt (env : FetchEnv) (releaseId : PyVal) : PyVal :=
  match searchCoverArtE env releaseId with
  | .ok v => v
  | .error _ => .none

/-! ## `MetadataFetcherThread.run` -/

/-- The cover-enrichment loop body in `MetadataFetcherThread.run`: when the
record carries the `release_id` key and the public-API client exists
(`self.public_apis`, constructed only when `use_public_apis` is true), look
up cover art and, if a URL is found, set `cover_url` and rewrite
`source`. -/
def enrichRecord (env : FetchEnv) (usePublic : Bool) (r : PyVal) :
    Except PErr PyVal := do
  let hasRid ← pyInKey "release_id" r
  if hasRid && usePublic then
    let rid ← pyIndexKey r "release_id"
    let cover := searchCoverArt env rid
    if pyTruthy cover then do
      let r ← pySetKey r "cover_url" cover
      pySetKey r "source" (.str "MusicBrainz (with cover)")
    else
      .ok r
  else
    .ok r

/-- `MetadataFetcherThread.run` for inputs `(artist, title, use_public_apis)`:
MusicBrainz first, cover enrichment in place, then (when enabled) TheAudioDB
and Deezer unconditionally and Lyrics.ovh only if the accumulated list is
still empty.  The returned flag records whether the Lyrics.ovh branch was
taken. -/
def runFetch (env : FetchEnv) (artist title : String) (usePublic : Bool) :
    Except PErr (List PyVal × Bool) := do
  let mbRaw ← fetchSongMetadata env.mb artist title
  let mbResults ← exMapM (enrichRecord env usePublic) mbRaw
  let options := mbResults
  if usePublic then
    let options := options ++ searchAudiodb artist title env.audiodbResp
    let options := options ++ searchDeezer artist title env.deezerResp
    let queried := options.isEmpty
    let options :=
      if queried then options ++ searchLrcat artist title env.lrcatResp
      else options
    .ok (options, queried)
  else
    .ok (options, false)

/-! ## The year sort in `AutoSongTaggerUI._on_metadata_fetched` -/

/-- The sort key of `_on_metadata_fetched`:
`int(x.get("year", "9999")[:4]) if x.get("year", "").strip().isdigit() else
9999`. -/
def yearSortKeyE (x : PyVal) : Except PErr Int := do
  let yv ← pyGetD x "year" (.str "")
  let s ← match yv with
    | .str s => pure s
    | _ => Except.error PErr.attributeError
  if pyStrIsdigit (pyStripS s) then do
    let yv2 ← pyGetD x "year" (.str "9999")
    let y4 ← pySlice4 yv2
    pyIntV y4
  else
    .ok 9999

/-- The comparison used for the stable sort, on records paired with their
precomputed keys. -/
def pairLe (a b : PyVal × Int) : Prop := a.2 ≤ b.2

instance : DecidableRel pairLe := fun a b => Int.decLe a.2 b.2

instance : IsTotal (PyVal × Int) pairLe := ⟨fun a b => Int.le_total a.2 b.2⟩

instance : IsTrans (PyVal × Int) pairLe := ⟨fun _ _ _ => Int.le_trans⟩

/-- The stable sort itself (Python's `list.sort` is a stable sort; a stable
sort is uniquely determined by the key, so insertion sort with ties kept in
input order is the same function). -/
def sortPairs (l : List (PyVal × Int)) : List (PyVal × Int) :=
  List.insertionSort pairLe l

/-- `self.metadata_options.sort(key=...)`: evaluate the key on every record
(a raising key aborts the sort), then sort stably, ascending. -/
def sortOptions (l : List PyVal) : Except PErr (List PyVal) := do
  let pairs ← exMapM (fun x => do
    let k ← yearSortKeyE x
    pure (x, k)) l
  .ok ((sortPairs pairs).map Prod.fst)

/-! ## Tag containers

`ID3Tags` models a mutagen `ID3` object: an insertion-ordered map from frame
hash-keys (`"TPE1"`, `"APIC:Cover"`, …) to frames.  `VComment` models a
mutagen `VCommentDict`: an ordered multiset of key/value string pairs. -/

/-- A frame stored in an ID3 container: a text frame (`TPE1`, `TIT2`, `TALB`,
`TDRC`, `TRCK`, `TCON`, …) with its encoding byte and text list, an `APIC`
picture frame, or any unrelated frame kind (its payload abstracted). -/
inductive ID3Frame where
  | text (encoding : Nat) (strs : List String) : ID3Frame
  | apic (encoding : Nat) (mime : String) (ptype : Nat) (desc : String)
      (data : List Nat) : ID3Frame
  | other (raw : String) : ID3Frame
  deriving DecidableEq, Repr

abbrev ID3Tags := List (String × ID3Frame)

/-- `tags[key] = frame` (replace in place, else append — mutagen's
`DictProxy` preserves insertion order). -/
def id3Set : ID3Tags → String → ID3Frame → ID3Tags
  | [], k, f => [(k, f)]
  | (k', f') :: rest, k, f =>
    if k' == k then (k, f) :: rest else (k', f') :: id3Set rest k f

/-- `tags[key]` / `key in tags`. -/
def id3Lookup (t : ID3Tags) (k : String) : Option ID3Frame :=
  (t.find? (fun p => p.1 == k)).map (fun p => p.2)

/-- Keys removed by `tags.delall("APIC")`: the bare frame id or any
`"APIC:<desc>"` hash key. -/
def isApicKey (k : String) : Bool :=
  k == "APIC" || "APIC:".data.isPrefixOf k.data

/-- The six text-frame keys `_write_mp3_tags` may touch. -/
def mp3WriteKeys : List String :=
  ["TPE1", "TIT2", "TALB", "TDRC", "TRCK", "TCON"]

/-- The metadata dict handed to `write_tags` (`chosen_metadata` in the
source always carries exactly these six string fields; `metadata.get(k)` is
truthy iff the field is non-empty). -/
structure SongMeta where
  artist : String
  title : String
  album : String
  year : String
  track : String
  genre : String
  deriving DecidableEq, Repr

/-- `_write_mp3_tags(audio, metadata)`: create an empty `ID3()` when the
file has none, then overwrite each of the six frames only when the incoming
field is non-empty; the year text is truncated to its first 4 characters. -/
def writeMp3Tags (tags : Option ID3Tags) (m : SongMeta) : ID3Tags :=
  let t := tags.getD []
  let t := if m.artist = "" then t else id3Set t "TPE1" (.text 3 [m.artist])
  let t := if m.title = "" then t else id3Set t "TIT2" (.text 3 [m.title])
  let t := if m.album = "" then t else id3Set t "TALB" (.text 3 [m.album])
  let t := if m.year = "" then t
    else id3Set t "TDRC" (.text 3 [strTake m.year 4])
  let t := if m.track = "" then t else id3Set t "TRCK" (.text 3 [m.track])
  let t := if m.genre = "" then t else id3Set t "TCON" (.text 3 [m.genre])
  t

/-- `_write_mp3_cover(audio, cover_data)`: remove every existing `APIC`
frame, then `add` one front-cover JPEG frame (mutagen keys it
`"APIC:" + desc`). -/
def writeMp3Cover (tags : Option ID3Tags) (coverData : List Nat) : ID3Tags :=
  let t := tags.getD []
  let t := t.filter (fun p => !isApicKey p.1)
  id3Set t ("APIC:" ++ "Cover") (.apic 3 "image/jpeg" 3 "Cover" coverData)

abbrev VComment := List (String × String)

/-- `tags[key] = values` on a `VCommentDict`: delete every pair for the key,
then append one pair per value. -/
def vcSet (t : VComment) (k : String) (vs : List String) : VComment :=
  t.filter (fun p => p.1 != k) ++ vs.map (fun v => (k, v))

/-- All values stored for a key (`tags.get(key)` on a `VCommentDict`). -/
def vcGet (t : VComment) (k : String) : List String :=
  (t.filter (fun p => p.1 == k)).map (fun p => p.2)

/-- The six comment keys `_write_ogg_opus_tags` may touch. -/
def oggWriteKeys : List String :=
  ["artist", "title", "album", "date", "tracknumber", "genre"]

/-- `_write_ogg_opus_tags(audio, metadata)`: create a tag block when absent,
then overwrite each key only when the incoming field is non-empty.  Note:
the year is stored whole, with no `[:4]` truncation. -/
def writeOggTags (tags : Option VComment) (m : SongMeta) : VComment :=
  let t := tags.getD []
  let t := if m.artist = "" then t else vcSet t "artist" [m.artist]
  let t := if m.title = "" then t else vcSet t "title" [m.title]
  let t := if m.album = "" then t else vcSet t "album" [m.album]
  let t := if m.year = "" then t else vcSet t "date" [m.year]
  let t := if m.track = "" then t else vcSet t "tracknumber" [m.track]
  let t := if m.genre = "" then t else vcSet t "genre" [m.genre]
  t

/-- A 32-bit big-endian encoding (FLAC `METADATA_BLOCK_PICTURE` fields). -/
def be32 (n : Nat) : List Nat :=
  [n / 2 ^ 24 % 256, n / 2 ^ 16 % 256, n / 2 ^ 8 % 256, n % 256]

/-- UTF-8 bytes of a string. -/
def utf8Bytes (s : String) : List Nat :=
  s.toUTF8.toList.map (fun b => b.toNat)

/-- `Picture.write()` for the picture built by `_write_ogg_opus_cover`:
type 3 (front cover), MIME `"image/jpeg"`, empty description, zero
width/height/depth/colors, then the image bytes. -/
def pictureWrite (coverData : List Nat) : List Nat :=
  be32 3 ++ be32 (utf8Bytes "image/jpeg").length ++ utf8Bytes "image/jpeg" ++
    be32 0 ++ be32 0 ++ be32 0 ++ be32 0 ++ be32 0 ++
    be32 coverData.length ++ coverData

/-- The base64 alphabet. -/
def b64Char (n : Nat) : Char :=
  ("ABCDEFGHIJKLMNOPQRSTUVWXYZabcdefghijklmnopqrstuvwxyz0123456789+/".data.getD
    n 'A')

/-- `base64.b64encode` on a byte list. -/
def b64encodeList : List Nat → List Char
  | a :: b :: c :: rest =>
    let n := a % 256 * 65536 + b % 256 * 256 + c % 256
    b64Char (n / 2 ^ 18 % 64) :: b64Char (n / 2 ^ 12 % 64) ::
      b64Char (n / 2 ^ 6 % 64) :: b64Char (n % 64) :: b64encodeList rest
  | [a, b] =>
    let n := a % 256 * 65536 + b % 256 * 256
    [b64Char (n / 2 ^ 18 % 64), b64Char (n / 2 ^ 12 % 64),
      b64Char (n / 2 ^ 6 % 64), '=']
  | [a] =>
    let n := a % 256 * 65536
    [b64Char (n / 2 ^ 18 % 64), b64Char (n / 2 ^ 12 % 64), '=', '=']
  | [] => []

/-- `base64.b64encode(...).decode("ascii")`. -/
def b64encode (bs : List Nat) : String :=
  String.mk (b64encodeList bs)

/-- `_write_ogg_opus_cover(audio, cover_data)`: replace the
`metadata_block_picture` key wholesale with the single base64-encoded
picture block. -/
def writeOggCover (tags : Option VComment) (coverData : List Nat) : VComment :=
  let t := tags.getD []
  vcSet t "metadata_block_picture" [b64encode (pictureWrite coverData)]

/-- `write_tags` on an MP3 file: `_write_mp3_tags`, then `_write_mp3_cover`
only when `cover_data` is truthy (present and non-empty). -/
def writeTagsMp3 (tags : Option ID3Tags) (m : SongMeta)
    (coverData : Option (List Nat)) : ID3Tags :=
  let t := writeMp3Tags tags m
  match coverData with
  | some c => if c.isEmpty then t else writeMp3Cover (some t) c
  | Option.none => t

/-- `write_tags` on an Opus file: `_write_ogg_opus_tags`, then
`_write_ogg_opus_cover` only when `cover_data` is truthy. -/
def writeTagsOgg (tags : Option VComment) (m : SongMeta)
    (coverData : Option (List Nat)) : VComment :=
  let t := writeOggTags tags m
  match coverData with
  | some c => if c.isEmpty then t else writeOggCover (some t) c
  | Option.none => t

/-! ## Tag extraction (`_extract_mp3_tags`, `_extract_ogg_tags`) -/

/-- The record of current tag values shown by the UI. -/
structure TagView where
  artist : String
  title : String
  album : String
  year : String
  track : String
  genre : String
  deriving DecidableEq, Repr

/-- `AutoSongTaggerUI._get_mp3_tag_value(tags, tag_name)`: `"N/A"` when the
container is `None`, the frame is missing, or its text list is empty (a
text-frame key always holds a text frame in mutagen, so the non-text case
is unreachable and also yields the default here). -/
def getMp3TagValue (tags : Option ID3Tags) (name : String) : String :=
  match tags with
  | some t =>
    match id3Lookup t name with
    | some (.text _ (s :: _)) => s
    | _ => "N/A"
  | Option.none => "N/A"

/-- The year branch of `_extract_mp3_tags`: guarded by the truthiness of
the whole container, the presence of `TDRC`, a non-empty text list, and the
first four characters of the date being digits. -/
def extractMp3Year (tags : Option ID3Tags) : String :=
  match tags with
  | some t =>
    if t.isEmpty then "N/A"
    else
      match id3Lookup t "TDRC" with
      | some (.text _ (s :: _)) =>
        if s.length ≥ 4 ∧ pyStrIsdigit (strTake s 4) then strTake s 4
        else "N/A"
      | _ => "N/A"
  | Option.none => "N/A"

/-- `AutoSongTaggerUI._extract_mp3_tags(audio)`. -/
def extractMp3Tags (tags : Option ID3Tags) : TagView where
  artist := getMp3TagValue tags "TPE1"
  title := getMp3TagValue tags "TIT2"
  album := getMp3TagValue tags "TALB"
  year := extractMp3Year tags
  track := getMp3TagValue tags "TRCK"
  genre := getMp3TagValue tags "TCON"

/-- `tags.get(key, ["N/A"])[0]` on a `VCommentDict` (a present key always
has at least one value pair). -/
def oggTagValue (t : VComment) (k : String) : String :=
  match vcGet t k with
  | v :: _ => v
  | [] => "N/A"

/-- `AutoSongTaggerUI._extract_ogg_tags(audio)`: every field is `"N/A"`
when the file has no tag block at all. -/
def extractOggTags (tags : Option VComment) : TagView :=
  match tags with
  | some t =>
    { artist := oggTagValue t "artist", title := oggTagValue t "title",
      album := oggTagValue t "album", year := oggTagValue t "date",
      track := oggTagValue t "tracknumber", genre := oggTagValue t "genre" }
  | Option.none =>
    { artist := "N/A", title := "N/A", album := "N/A", year := "N/A",
      track := "N/A", genre := "N/A" }

/-! ## Container lemmas -/

theorem id3Lookup_id3Set (t : ID3Tags) (k k' : String) (f : ID3Frame) :
    id3Lookup (id3Set t k f) k' = if k' = k then some f else id3Lookup t k' := by
  induction t with
  | nil =>
    by_cases h : k' = k
    · subst h
      simp [id3Set, id3Lookup]
    · have hb : (k == k') = false := beq_eq_false_iff_ne.mpr (Ne.symm h)
      simp [id3Set, id3Lookup, h, hb]
  | cons hd tl ih =>
    obtain ⟨a, b⟩ := hd
    by_cases hak : a = k
    · subst hak
      by_cases h : k' = a
      · subst h
        simp [id3Set, id3Lookup]
      · have hb : (a == k') = false := beq_eq_false_iff_ne.mpr (Ne.symm h)
        simp [id3Set, id3Lookup, h, hb]
    · have hakb : (a == k) = false := beq_eq_false_iff_ne.mpr hak
      by_cases hak' : a = k'
      · subst hak'
        simp [id3Set, id3Lookup, hakb, hak]
      · have hakb' : (a == k') = false := beq_eq_false_iff_ne.mpr hak'
        simpa [id3Set, id3Lookup, hakb, hakb'] using ih

theorem vcGet_append (t u : VComment) (k : String) :
    vcGet (t ++ u) k = vcGet t k ++ vcGet u k := by
  simp [vcGet, List.filter_append]

theorem vcGet_map_self (k : String) (vs : List String) :
    vcGet (vs.map (fun v => (k, v))) k = vs := by
  induction vs with
  | nil => rfl
  | cons v vs ih => simpa [vcGet] using ih

theorem vcGet_map_ne (k k' : String) (vs : List String) (h : k' ≠ k) :
    vcGet (vs.map (fun v => (k, v))) k' = [] := by
  induction vs with
  | nil => rfl
  | cons v vs ih => simpa [vcGet, Ne.symm h] using ih

theorem vcGet_filter_ne_self (t : VComment) (k : String) :
    vcGet (t.filter (fun p => p.1 != k)) k = [] := by
  induction t with
  | nil => rfl
  | cons hd tl ih =>
    obtain ⟨a, b⟩ := hd
    by_cases h : a = k
    · subst h
      simpa [vcGet, List.filter_cons] using ih
    · have hb : (a != k) = true := bne_iff_ne.mpr h
      have hb2 : (a == k) = false := beq_eq_false_iff_ne.mpr h
      simpa [vcGet, List.filter_cons, hb, hb2] using ih

theorem vcGet_filter_ne_other (t : VComment) (k k' : String) (h : k' ≠ k) :
    vcGet (t.filter (fun p => p.1 != k)) k' = vcGet t k' := by
  induction t with
  | nil => rfl
  | cons hd tl ih =>
    obtain ⟨a, b⟩ := hd
    by_cases hk : a = k
    · subst hk
      have hb : (a == k') = false := beq_eq_false_iff_ne.mpr (Ne.symm h)
      simpa [vcGet, List.filter_cons, hb] using ih
    · have hb : (a != k) = true := bne_iff_ne.mpr hk
      by_cases hk' : a = k'
      · subst hk'
        simpa [vcGet, List.filter_cons, hb] using ih
      · have hb2 : (a == k') = false := beq_eq_false_iff_ne.mpr hk'
        simpa [vcGet, List.filter_cons, hb, hb2] using ih

theorem vcGet_vcSet (t : VComment) (k k' : String) (vs : List String) :
    vcGet (vcSet t k vs) k' = if k' = k then vs else vcGet t k' := by
  by_cases h : k' = k
  · subst h
    simp [vcSet, vcGet_append, vcGet_filter_ne_self, vcGet_map_self]
  · simp [vcSet, vcGet_append, vcGet_filter_ne_other t k k' h,
      vcGet_map_ne k k' vs h, h]

/-- Where each frame key ends up after `_write_mp3_tags`: the six keys are
overwritten only when the corresponding field is non-empty, everything else
is untouched. -/
theorem writeMp3Tags_lookup (tags : Option ID3Tags) (m : SongMeta)
    (k : String) :
    id3Lookup (writeMp3Tags tags m) k =
      if k = "TCON" ∧ m.genre ≠ "" then some (.text 3 [m.genre])
      else if k = "TRCK" ∧ m.track ≠ "" then some (.text 3 [m.track])
      else if k = "TDRC" ∧ m.year ≠ "" then some (.text 3 [strTake m.year 4])
      else if k = "TALB" ∧ m.album ≠ "" then some (.text 3 [m.album])
      else if k = "TIT2" ∧ m.title ≠ "" then some (.text 3 [m.title])
      else if k = "TPE1" ∧ m.artist ≠ "" then some (.text 3 [m.artist])
      else id3Lookup (tags.getD []) k := by
  by_cases h1 : m.artist = "" <;> by_cases h2 : m.title = "" <;>
    by_cases h3 : m.album = "" <;> by_cases h4 : m.year = "" <;>
    by_cases h5 : m.track = "" <;> by_cases h6 : m.genre = "" <;>
    simp [writeMp3Tags, id3Lookup_id3Set, h1, h2, h3, h4, h5, h6]

/-- Where each comment key ends up after `_write_ogg_opus_tags`. -/
theorem writeOggTags_vcGet (tags : Option VComment) (m : SongMeta)
    (k : String) :
    vcGet (writeOggTags tags m) k =
      if k = "genre" ∧ m.genre ≠ "" then [m.genre]
      else if k = "tracknumber" ∧ m.track ≠ "" then [m.track]
      else if k = "date" ∧ m.year ≠ "" then [m.year]
      else if k = "album" ∧ m.album ≠ "" then [m.album]
      else if k = "title" ∧ m.title ≠ "" then [m.title]
      else if k = "artist" ∧ m.artist ≠ "" then [m.artist]
      else vcGet (tags.getD []) k := by
  by_cases h1 : m.artist = "" <;> by_cases h2 : m.title = "" <;>
    by_cases h3 : m.album = "" <;> by_cases h4 : m.year = "" <;>
    by_cases h5 : m.track = "" <;> by_cases h6 : m.genre = "" <;>
    simp [writeOggTags, vcGet_vcSet, h1, h2, h3, h4, h5, h6]

/-- `id3Set` appends when the key is not already present. -/
theorem id3Set_eq_append (t : ID3Tags) (k : String) (f : ID3Frame)
    (h : ∀ p ∈ t, p.1 ≠ k) : id3Set t k f = t ++ [(k, f)] := by
  induction t with
  | nil => rfl
  | cons hd tl ih =>
    obtain ⟨a, b⟩ := hd
    have ha : a ≠ k := h (a, b) (by simp)
    have hb : (a == k) = false := beq_eq_false_iff_ne.mpr ha
    simp only [id3Set, hb, Bool.false_eq_true, if_false, List.cons_append,
      List.cons.injEq, true_and]
    exact ih (fun p hp => h p (by simp [hp]))

/-- After `delall("APIC")` no picture key survives. -/
theorem filter_apic_of_delall (t : ID3Tags) :
    (t.filter (fun p => !isApicKey p.1)).filter (fun p => isApicKey p.1)
      = [] := by
  induction t with
  | nil => rfl
  | cons hd tl ih =>
    by_cases h : isApicKey hd.1
    · simpa [List.filter_cons, h] using ih
    · simpa [List.filter_cons, h] using ih

/-- The picture frames present after `_write_mp3_cover`: exactly the one
front-cover JPEG frame just written. -/
theorem writeMp3Cover_filter_apic (tags : Option ID3Tags) (c : List Nat) :
    (writeMp3Cover tags c).filter (fun p => isApicKey p.1)
      = [("APIC:" ++ "Cover", .apic 3 "image/jpeg" 3 "Cover" c)] := by
  unfold writeMp3Cover
  rw [id3Set_eq_append]
  · rw [List.filter_append, filter_apic_of_delall]
    simp [isApicKey]
  · intro p hp hk
    have hmem := List.of_mem_filter hp
    rw [hk] at hmem
    simp [isApicKey] at hmem

/-! ## C1 — year truncation on write -/

/-- C1, counterexample: a Write with the non-empty 6-character year
`"197510"` stores the full string in the Opus comment map (`date` key), not
its first 4 characters, so the claim fails for the CommentMapTags
variant. -/
theorem astC1_cex :
    vcGet (writeTagsOgg Option.none ⟨"", "", "", "197510", "", ""⟩ Option.none)
        "date" = ["197510"]
      ∧ strTake "197510" 4 = "1975"
      ∧ ("197510" : String) ≠ "1975" :=
  ⟨rfl, rfl, by decide⟩

/-- C1 (amended): for every Write whose incoming record has a non-empty year
field, the FrameTags (MP3) writer stores the first 4 characters of the year
in the `TDRC` frame, while the CommentMapTags (Opus) writer stores the year
string whole under the `date` key — truncation applies only to the MP3
variant. -/
theorem astC1_year_write (tags : Option ID3Tags) (vtags : Option VComment)
    (m : SongMeta) (h : m.year ≠ "") :
    id3Lookup (writeTagsMp3 tags m Option.none) "TDRC"
        = some (.text 3 [strTake m.year 4])
      ∧ vcGet (writeTagsOgg vtags m Option.none) "date" = [m.year] := by
  constructor
  · show id3Lookup (writeMp3Tags tags m) _ = _
    rw [writeMp3Tags_lookup]
    simp [h]
  · show vcGet (writeOggTags vtags m) _ = _
    rw [writeOggTags_vcGet]
    simp [h]

/-- Witness for `astC1_year_write` at a concrete record. -/
theorem astC1_year_write_w :
    id3Lookup (writeTagsMp3 Option.none ⟨"", "", "", "197510", "", ""⟩
        Option.none) "TDRC" = some (.text 3 ["1975"])
      ∧ vcGet (writeTagsOgg Option.none ⟨"", "", "", "197510", "", ""⟩
          Option.none) "date" = ["197510"] := by
  have h := astC1_year_write Option.none Option.none
    ⟨"", "", "", "197510", "", ""⟩ (by decide)
  exact ⟨h.1, h.2⟩

/-! ## C7 — write touches only non-empty fields -/

/-- Non-picture keys are untouched by `delall("APIC")`. -/
theorem id3Lookup_filter_not_apic (t : ID3Tags) (k : String)
    (hk : isApicKey k = false) :
    id3Lookup (t.filter (fun p => !isApicKey p.1)) k = id3Lookup t k := by
  induction t with
  | nil => rfl
  | cons hd tl ih =>
    obtain ⟨a, b⟩ := hd
    by_cases ha : isApicKey a = true
    · have hfa : (!isApicKey a) = false := by rw [ha]; rfl
      have hak : (a == k) = false := by
        refine beq_eq_false_iff_ne.mpr (fun he => ?_)
        rw [he, hk] at ha
        cases ha
      rw [List.filter_cons, hfa]
      simp only [Bool.false_eq_true, if_false]
      rw [ih]
      simp [id3Lookup, List.find?, hak]
    · have hfa : (!isApicKey a) = true := by
        cases hx : isApicKey a
        · rfl
        · exact absurd hx ha
      rw [List.filter_cons, hfa]
      simp only [if_true]
      by_cases hak : (a == k) = true
      · simp [id3Lookup, List.find?, hak]
      · have hak' : (a == k) = false := by
          cases hx : (a == k)
          · rfl
          · exact absurd hx hak
        simp only [id3Lookup, List.find?, hak'] at ih ⊢
        exact ih

/-- The cover step of `write_tags` on an MP3 changes no non-picture
frame. -/
theorem id3Lookup_writeTagsMp3_cover (tags : Option ID3Tags) (m : SongMeta)
    (cover : Option (List Nat)) (k : String) (hk : isApicKey k = false) :
    id3Lookup (writeTagsMp3 tags m cover) k
      = id3Lookup (writeMp3Tags tags m) k := by
  cases cover with
  | none => rfl
  | some c =>
    by_cases hc : c.isEmpty = true
    · simp [writeTagsMp3, hc]
    · have hc' : c.isEmpty = false := by
        cases hx : c.isEmpty
        · rfl
        · exact absurd hx hc
      simp only [writeTagsMp3, hc', Bool.false_eq_true, if_false]
      unfold writeMp3Cover
      have hne : ¬ (k = "APIC:" ++ "Cover") := by
        intro he
        rw [he] at hk
        exact absurd hk (by decide)
      rw [id3Lookup_id3Set, if_neg hne]
      simp only [Option.getD_some]
      exact id3Lookup_filter_not_apic _ k hk

/-- The cover step of `write_tags` on an Opus file changes no key other
than `metadata_block_picture`. -/
theorem vcGet_writeTagsOgg_cover (vtags : Option VComment) (m : SongMeta)
    (cover : Option (List Nat)) (k : String)
    (hk : k ≠ "metadata_block_picture") :
    vcGet (writeTagsOgg vtags m cover) k = vcGet (writeOggTags vtags m) k := by
  cases cover with
  | none => rfl
  | some c =>
    by_cases hc : c.isEmpty = true
    · simp [writeTagsOgg, hc]
    · have hc' : c.isEmpty = false := by
        cases hx : c.isEmpty
        · rfl
        · exact absurd hx hc
      simp only [writeTagsOgg, hc', Bool.false_eq_true, if_false]
      unfold writeOggCover
      rw [vcGet_vcSet, if_neg hk]
      rfl

/-- C7: for every Write call — whatever cover is supplied — each of the six
fields overwrites its frame/key only when the incoming field is non-empty,
an empty field leaves the existing value untouched (no deletion), and every
frame/key outside the six written ones other than the picture frame/key is
unchanged; when no cover is supplied the picture frames/keys are unchanged
as well, in both container variants. -/
theorem astC7_write_effects (tags : Option ID3Tags) (vtags : Option VComment)
    (m : SongMeta) (cover : Option (List Nat)) :
    (id3Lookup (writeTagsMp3 tags m cover) "TPE1"
        = if m.artist = "" then id3Lookup (tags.getD []) "TPE1"
          else some (.text 3 [m.artist]))
    ∧ (id3Lookup (writeTagsMp3 tags m cover) "TIT2"
        = if m.title = "" then id3Lookup (tags.getD []) "TIT2"
          else some (.text 3 [m.title]))
    ∧ (id3Lookup (writeTagsMp3 tags m cover) "TALB"
        = if m.album = "" then id3Lookup (tags.getD []) "TALB"
          else some (.text 3 [m.album]))
    ∧ (id3Lookup (writeTagsMp3 tags m cover) "TDRC"
        = if m.year = "" then id3Lookup (tags.getD []) "TDRC"
          else some (.text 3 [strTake m.year 4]))
    ∧ (id3Lookup (writeTagsMp3 tags m cover) "TRCK"
        = if m.track = "" then id3Lookup (tags.getD []) "TRCK"
          else some (.text 3 [m.track]))
    ∧ (id3Lookup (writeTagsMp3 tags m cover) "TCON"
        = if m.genre = "" then id3Lookup (tags.getD []) "TCON"
          else some (.text 3 [m.genre]))
    ∧ (∀ k, k ∉ mp3WriteKeys → isApicKey k = false →
        id3Lookup (writeTagsMp3 tags m cover) k
          = id3Lookup (tags.getD []) k)
    ∧ (∀ k, k ∉ mp3WriteKeys →
        id3Lookup (writeTagsMp3 tags m Option.none) k
          = id3Lookup (tags.getD []) k)
    ∧ (vcGet (writeTagsOgg vtags m cover) "artist"
        = if m.artist = "" then vcGet (vtags.getD []) "artist"
          else [m.artist])
    ∧ (vcGet (writeTagsOgg vtags m cover) "title"
        = if m.title = "" then vcGet (vtags.getD []) "title" else [m.title])
    ∧ (vcGet (writeTagsOgg vtags m cover) "album"
        = if m.album = "" then vcGet (vtags.getD []) "album" else [m.album])
    ∧ (vcGet (writeTagsOgg vtags m cover) "date"
        = if m.year = "" then vcGet (vtags.getD []) "date" else [m.year])
    ∧ (vcGet (writeTagsOgg vtags m cover) "tracknumber"
        = if m.track = "" then vcGet (vtags.getD []) "tracknumber"
          else [m.track])
    ∧ (vcGet (writeTagsOgg vtags m cover) "genre"
        = if m.genre = "" then vcGet (vtags.getD []) "genre" else [m.genre])
    ∧ (∀ k, k ∉ oggWriteKeys → k ≠ "metadata_block_picture" →
        vcGet (writeTagsOgg vtags m cover) k = vcGet (vtags.getD []) k)
    ∧ (∀ k, k ∉ oggWriteKeys →
        vcGet (writeTagsOgg vtags m Option.none) k
          = vcGet (vtags.getD []) k) := by
  refine ⟨?_, ?_, ?_, ?_, ?_, ?_, ?_, ?_, ?_, ?_, ?_, ?_, ?_, ?_, ?_, ?_⟩
  · rw [id3Lookup_writeTagsMp3_cover tags m cover "TPE1" rfl,
      writeMp3Tags_lookup]
    by_cases h : m.artist = "" <;> simp [h]
  · rw [id3Lookup_writeTagsMp3_cover tags m cover "TIT2" rfl,
      writeMp3Tags_lookup]
    by_cases h : m.title = "" <;> simp [h]
  · rw [id3Lookup_writeTagsMp3_cover tags m cover "TALB" rfl,
      writeMp3Tags_lookup]
    by_cases h : m.album = "" <;> simp [h]
  · rw [id3Lookup_writeTagsMp3_cover tags m cover "TDRC" rfl,
      writeMp3Tags_lookup]
    by_cases h : m.year = "" <;> simp [h]
  · rw [id3Lookup_writeTagsMp3_cover tags m cover "TRCK" rfl,
      writeMp3Tags_lookup]
    by_cases h : m.track = "" <;> simp [h]
  · rw [id3Lookup_writeTagsMp3_cover tags m cover "TCON" rfl,
      writeMp3Tags_lookup]
    by_cases h : m.genre = "" <;> simp [h]
  · intro k hk hak
    rw [id3Lookup_writeTagsMp3_cover tags m cover k hak, writeMp3Tags_lookup]
    simp only [mp3WriteKeys, List.mem_cons, List.not_mem_nil, or_false,
      not_or] at hk
    obtain ⟨n1, n2, n3, n4, n5, n6⟩ := hk
    simp [n1, n2, n3, n4, n5, n6]
  · intro k hk
    simp only [mp3WriteKeys, List.mem_cons, List.not_mem_nil, or_false,
      not_or] at hk
    obtain ⟨n1, n2, n3, n4, n5, n6⟩ := hk
    show id3Lookup (writeMp3Tags tags m) _ = _
    rw [writeMp3Tags_lookup]
    simp [n1, n2, n3, n4, n5, n6]
  · rw [vcGet_writeTagsOgg_cover vtags m cover "artist" (by decide),
      writeOggTags_vcGet]
    by_cases h : m.artist = "" <;> simp [h]
  · rw [vcGet_writeTagsOgg_cover vtags m cover "title" (by decide),
      writeOggTags_vcGet]
    by_cases h : m.title = "" <;> simp [h]
  · rw [vcGet_writeTagsOgg_cover vtags m cover "album" (by decide),
      writeOggTags_vcGet]
    by_cases h : m.album = "" <;> simp [h]
  · rw [vcGet_writeTagsOgg_cover vtags m cover "date" (by decide),
      writeOggTags_vcGet]
    by_cases h : m.year = "" <;> simp [h]
  · rw [vcGet_writeTagsOgg_cover vtags m cover "tracknumber" (by decide),
      writeOggTags_vcGet]
    by_cases h : m.track = "" <;> simp [h]
  · rw [vcGet_writeTagsOgg_cover vtags m cover "genre" (by decide),
      writeOggTags_vcGet]
    by_cases h : m.genre = "" <;> simp [h]
  · intro k hk hmbp
    rw [vcGet_writeTagsOgg_cover vtags m cover k hmbp, writeOggTags_vcGet]
    simp only [oggWriteKeys, List.mem_cons, List.not_mem_nil, or_false,
      not_or] at hk
    obtain ⟨n1, n2, n3, n4, n5, n6⟩ := hk
    simp [n1, n2, n3, n4, n5, n6]
  · intro k hk
    simp only [oggWriteKeys, List.mem_cons, List.not_mem_nil, or_false,
      not_or] at hk
    obtain ⟨n1, n2, n3, n4, n5, n6⟩ := hk
    show vcGet (writeOggTags vtags m) _ = _
    rw [writeOggTags_vcGet]
    simp [n1, n2, n3, n4, n5, n6]

/-- Witness for `astC7_write_effects`: unrelated custom frames/keys survive
a cover-supplied write that also sets the artist, and an existing picture
frame survives a no-cover write. -/
theorem astC7_write_effects_w :
    id3Lookup (writeTagsMp3 (some [("TXXX:custom", ID3Frame.other "keep")])
        ⟨"A", "", "", "", "", ""⟩ (some [9])) "TXXX:custom"
      = some (ID3Frame.other "keep")
    ∧ id3Lookup (writeTagsMp3
        (some [("APIC:old", ID3Frame.apic 0 "m" 3 "old" [1])])
        ⟨"A", "", "", "", "", ""⟩ Option.none) "APIC:old"
      = some (ID3Frame.apic 0 "m" 3 "old" [1])
    ∧ vcGet (writeTagsOgg (some [("custom", "keep")])
        ⟨"A", "", "", "", "", ""⟩ (some [9])) "custom" = ["keep"] := by
  have h1 := astC7_write_effects (some [("TXXX:custom", ID3Frame.other "keep")])
    (some [("custom", "keep")]) ⟨"A", "", "", "", "", ""⟩ (some [9])
  have h2 := astC7_write_effects
    (some [("APIC:old", ID3Frame.apic 0 "m" 3 "old" [1])]) Option.none
    ⟨"A", "", "", "", "", ""⟩ Option.none
  refine ⟨?_, ?_, ?_⟩
  · exact (h1.2.2.2.2.2.2.1 "TXXX:custom" (by decide) rfl).trans rfl
  · exact (h2.2.2.2.2.2.2.2.1 "APIC:old" (by decide)).trans rfl
  · exact (h1.2.2.2.2.2.2.2.2.2.2.2.2.2.2.1 "custom" (by decide)
      (by decide)).trans rfl

/-! ## C8 — exactly one picture after a cover write -/

/-- C8: for every container state and every Write supplying (non-empty)
cover bytes, exactly one picture frame/key remains: the FrameTags writer
removes all `APIC` frames and inserts one front-cover frame with MIME
`"image/jpeg"`; the CommentMapTags writer replaces the
`metadata_block_picture` key with a single value; writing a cover twice in
sequence still leaves exactly one picture, in both variants. -/
theorem astC8_single_cover (tags : Option ID3Tags) (vtags : Option VComment)
    (m m' : SongMeta) (c c' : List Nat) (hc : c ≠ []) (hc' : c' ≠ []) :
    ((writeTagsMp3 tags m (some c)).filter (fun p => isApicKey p.1)
        = [("APIC:" ++ "Cover", .apic 3 "image/jpeg" 3 "Cover" c)])
    ∧ ((writeTagsMp3 (some (writeTagsMp3 tags m (some c))) m'
          (some c')).filter (fun p => isApicKey p.1)
        = [("APIC:" ++ "Cover", .apic 3 "image/jpeg" 3 "Cover" c')])
    ∧ vcGet (writeTagsOgg vtags m (some c)) "metadata_block_picture"
        = [b64encode (pictureWrite c)]
    ∧ vcGet (writeTagsOgg (some (writeTagsOgg vtags m (some c))) m'
          (some c')) "metadata_block_picture"
        = [b64encode (pictureWrite c')] := by
  have hce : c.isEmpty = false := by simpa [List.isEmpty_iff] using hc
  have hce' : c'.isEmpty = false := by simpa [List.isEmpty_iff] using hc'
  refine ⟨?_, ?_, ?_, ?_⟩
  · show (writeTagsMp3 tags m (some c)).filter _ = _
    simp only [writeTagsMp3, hce, Bool.false_eq_true, if_false]
    exact writeMp3Cover_filter_apic _ c
  · simp only [writeTagsMp3, hce', Bool.false_eq_true, if_false]
    exact writeMp3Cover_filter_apic _ c'
  · simp only [writeTagsOgg, writeTagsMp3, hce, Bool.false_eq_true, if_false]
    show vcGet (writeOggCover _ c) _ = _
    unfold writeOggCover
    rw [vcGet_vcSet]
    simp
  · simp only [writeTagsOgg, hce', Bool.false_eq_true, if_false]
    show vcGet (writeOggCover _ c') _ = _
    unfold writeOggCover
    rw [vcGet_vcSet]
    simp

/-- Witness for `astC8_single_cover` on a container that already holds two
picture frames. -/
theorem astC8_single_cover_w :
    ((writeTagsMp3 (some [("APIC:a", ID3Frame.apic 0 "m" 3 "a" [7]),
        ("APIC:b", ID3Frame.apic 0 "m" 3 "b" [8])])
        ⟨"", "", "", "", "", ""⟩ (some [1, 2])).filter
          (fun p => isApicKey p.1)
      = [("APIC:" ++ "Cover", ID3Frame.apic 3 "image/jpeg" 3 "Cover" [1, 2])])
    ∧ vcGet (writeTagsOgg Option.none ⟨"", "", "", "", "", ""⟩
        (some [1, 2])) "metadata_block_picture"
      = [b64encode (pictureWrite [1, 2])] := by
  have h := astC8_single_cover
    (some [("APIC:a", ID3Frame.apic 0 "m" 3 "a" [7]),
      ("APIC:b", ID3Frame.apic 0 "m" 3 "b" [8])])
    Option.none ⟨"", "", "", "", "", ""⟩ ⟨"", "", "", "", "", ""⟩
    [1, 2] [1, 2] (by decide) (by decide)
  exact ⟨h.1, h.2.2.1⟩

/-! ## C9 — read defaults -/

/-- C9: for every Read, a missing frame/key yields the literal `"N/A"`
(distinct from the empty string); the FrameTags year is returned only when
the date's first four characters are all digits (and is those four
characters), else `"N/A"`; and a CommentMapTags container with no tag block
yields `"N/A"` for every field. -/
theorem astC9_read_defaults (tags : Option ID3Tags) (t : VComment) :
    ((id3Lookup (tags.getD []) "TPE1" = Option.none →
        (extractMp3Tags tags).artist = "N/A")
      ∧ (id3Lookup (tags.getD []) "TIT2" = Option.none →
        (extractMp3Tags tags).title = "N/A")
      ∧ (id3Lookup (tags.getD []) "TALB" = Option.none →
        (extractMp3Tags tags).album = "N/A")
      ∧ (id3Lookup (tags.getD []) "TDRC" = Option.none →
        (extractMp3Tags tags).year = "N/A")
      ∧ (id3Lookup (tags.getD []) "TRCK" = Option.none →
        (extractMp3Tags tags).track = "N/A")
      ∧ (id3Lookup (tags.getD []) "TCON" = Option.none →
        (extractMp3Tags tags).genre = "N/A"))
    ∧ ((extractMp3Tags tags).year ≠ "N/A" →
        ∃ e s rest, id3Lookup (tags.getD []) "TDRC"
            = some (ID3Frame.text e (s :: rest))
          ∧ s.length ≥ 4 ∧ pyStrIsdigit (strTake s 4) = true
          ∧ (extractMp3Tags tags).year = strTake s 4)
    ∧ ("N/A" : String) ≠ ""
    ∧ extractOggTags Option.none
        = ⟨"N/A", "N/A", "N/A", "N/A", "N/A", "N/A"⟩
    ∧ ((vcGet t "artist" = [] → (extractOggTags (some t)).artist = "N/A")
      ∧ (vcGet t "title" = [] → (extractOggTags (some t)).title = "N/A")
      ∧ (vcGet t "album" = [] → (extractOggTags (some t)).album = "N/A")
      ∧ (vcGet t "date" = [] → (extractOggTags (some t)).year = "N/A")
      ∧ (vcGet t "tracknumber" = [] →
          (extractOggTags (some t)).track = "N/A")
      ∧ (vcGet t "genre" = [] → (extractOggTags (some t)).genre = "N/A")) := by
  refine ⟨⟨?_, ?_, ?_, ?_, ?_, ?_⟩, ?_, by decide, rfl,
    ⟨?_, ?_, ?_, ?_, ?_, ?_⟩⟩
  · intro h
    cases tags with
    | none => rfl
    | some tt =>
      simp only [Option.getD_some] at h
      simp [extractMp3Tags, getMp3TagValue, h]
  · intro h
    cases tags with
    | none => rfl
    | some tt =>
      simp only [Option.getD_some] at h
      simp [extractMp3Tags, getMp3TagValue, h]
  · intro h
    cases tags with
    | none => rfl
    | some tt =>
      simp only [Option.getD_some] at h
      simp [extractMp3Tags, getMp3TagValue, h]
  · intro h
    cases tags with
    | none => rfl
    | some tt =>
      simp only [Option.getD_some] at h
      simp [extractMp3Tags, extractMp3Year, h]
  · intro h
    cases tags with
    | none => rfl
    | some tt =>
      simp only [Option.getD_some] at h
      simp [extractMp3Tags, getMp3TagValue, h]
  · intro h
    cases tags with
    | none => rfl
    | some tt =>
      simp only [Option.getD_some] at h
      simp [extractMp3Tags, getMp3TagValue, h]
  · intro hne
    cases tags with
    | none => simp [extractMp3Tags, extractMp3Year] at hne
    | some tt =>
      by_cases he : tt.isEmpty
      · simp [extractMp3Tags, extractMp3Year, he] at hne
      · rcases hl : id3Lookup tt "TDRC" with _ | f
        · simp [extractMp3Tags, extractMp3Year, he, hl] at hne
        · cases f with
          | text e strs =>
            cases strs with
            | nil => simp [extractMp3Tags, extractMp3Year, he, hl] at hne
            | cons s0 rest =>
              by_cases hcond :
                  s0.length ≥ 4 ∧ pyStrIsdigit (strTake s0 4) = true
              · exact ⟨e, s0, rest, hl, hcond.1, hcond.2,
                  by simp [extractMp3Tags, extractMp3Year, he, hl, hcond]⟩
              · simp only [extractMp3Tags, extractMp3Year, he, hl] at hne
                rw [if_neg hcond] at hne
                exact absurd rfl hne
          | apic e mi ty de da =>
            simp [extractMp3Tags, extractMp3Year, he, hl] at hne
          | other raw =>
            simp [extractMp3Tags, extractMp3Year, he, hl] at hne
  · intro h
    simp [extractOggTags, oggTagValue, h]
  · intro h
    simp [extractOggTags, oggTagValue, h]
  · intro h
    simp [extractOggTags, oggTagValue, h]
  · intro h
    simp [extractOggTags, oggTagValue, h]
  · intro h
    simp [extractOggTags, oggTagValue, h]
  · intro h
    simp [extractOggTags, oggTagValue, h]

/-- Witness for `astC9_read_defaults`: an empty MP3 container reads as all
`"N/A"`, a valid date frame reads back its 4-digit prefix. -/
theorem astC9_read_defaults_w :
    (extractMp3Tags (some [])).artist = "N/A"
    ∧ (∃ e s rest,
        id3Lookup ((some [("TDRC", ID3Frame.text 3 ["1975-10-31"])]
            : Option ID3Tags).getD []) "TDRC"
          = some (ID3Frame.text e (s :: rest))
        ∧ s.length ≥ 4 ∧ pyStrIsdigit (strTake s 4) = true
        ∧ (extractMp3Tags
            (some [("TDRC", ID3Frame.text 3 ["1975-10-31"])])).year
          = strTake s 4)
    ∧ (extractOggTags (some [("other", "x")])).artist = "N/A" := by
  refine ⟨(astC9_read_defaults (some []) []).1.1 rfl, ?_, ?_⟩
  · exact (astC9_read_defaults
      (some [("TDRC", ID3Frame.text 3 ["1975-10-31"])]) []).2.1 (by decide)
  · exact (astC9_read_defaults Option.none
      [("other", "x")]).2.2.2.2.1 rfl

/-! ## C10 — release choice -/

/-- Whether a release value (a dict) carries a `date` key. -/
def hasDateKey (r : PyVal) : Bool :=
  match r with
  | .dict kvs => kvs.any (fun p => p.1 == "date")
  | _ => false

theorem exOk_bind (a : α) (f : α → Except PErr β) :
    (Except.ok a >>= f) = f a := rfl

theorem exErr_bind (e : PErr) (f : α → Except PErr β) :
    ((Except.error e : Except PErr α) >>= f) = .error e := rfl

theorem exFilterM_ok (f : α → Except PErr Bool) (p : α → Bool)
    (l : List α) (h : ∀ x ∈ l, f x = .ok (p x)) :
    exFilterM f l = .ok (l.filter p) := by
  induction l with
  | nil => rfl
  | cons x xs ih =>
    have hx : f x = .ok (p x) := h x (by simp)
    have hxs := ih (fun y hy => h y (by simp [hy]))
    by_cases hp : p x <;>
      simp [exFilterM, hx, hxs, exOk_bind, List.filter_cons, hp]

theorem find?_eq_head?_filter (p : α → Bool) (l : List α) :
    l.find? p = (l.filter p).head? := by
  induction l with
  | nil => rfl
  | cons a l ih =>
    by_cases h : p a
    · rw [List.find?_cons_of_pos _ h, List.filter_cons, if_pos h]
      rfl
    · rw [List.find?_cons_of_neg _ h, List.filter_cons, if_neg h, ih]

/-- C10: `_choose_release` returns the first release carrying a `date` key
when one exists, else the first release; in particular on a list of one
dated and two undated releases it returns the dated one at any position. -/
theorem astC10_chooseRelease :
    (∀ l : List PyVal, l ≠ [] → (∀ r ∈ l, ∃ kvs, r = PyVal.dict kvs) →
      chooseRelease (.list l)
        = .ok (match l.find? hasDateKey with
            | some d => d
            | Option.none => l.headD .none))
    ∧ (∀ d u1 u2 : PyVal,
        (∃ kvs, d = PyVal.dict kvs) → (∃ kvs, u1 = PyVal.dict kvs) →
        (∃ kvs, u2 = PyVal.dict kvs) →
        hasDateKey d = true → hasDateKey u1 = false → hasDateKey u2 = false →
        chooseRelease (.list [d, u1, u2]) = .ok d
        ∧ chooseRelease (.list [u1, d, u2]) = .ok d
        ∧ chooseRelease (.list [u1, u2, d]) = .ok d) := by
  have main : ∀ l : List PyVal, l ≠ [] →
      (∀ r ∈ l, ∃ kvs, r = PyVal.dict kvs) →
      chooseRelease (.list l)
        = .ok (match l.find? hasDateKey with
            | some d => d
            | Option.none => l.headD .none) := by
    intro l hne hdl
    have hin : ∀ r ∈ l, pyInKey "date" r = .ok (hasDateKey r) := by
      intro r hr
      obtain ⟨kvs, rfl⟩ := hdl r hr
      rfl
    show (pyIter (.list l) >>= fun rs =>
        exFilterM (fun r => pyInKey "date" r) rs >>= fun dated =>
        match dated with
        | d :: _ => .ok d
        | [] => pyIndexNat (.list l) 0) = _
    rw [show pyIter (.list l) = .ok l from rfl, exOk_bind,
      exFilterM_ok _ hasDateKey l hin, exOk_bind,
      find?_eq_head?_filter]
    cases hf : l.filter hasDateKey with
    | cons d ds => rfl
    | nil =>
      cases l with
      | nil => exact absurd rfl hne
      | cons x xs => rfl
  refine ⟨main, ?_⟩
  intro d u1 u2 hd hu1 hu2 hdt hut1 hut2
  refine ⟨?_, ?_, ?_⟩
  · rw [main [d, u1, u2] (by simp) ?_]
    · simp [List.find?_cons, hdt]
    · intro r hr
      simp only [List.mem_cons, List.not_mem_nil, or_false] at hr
      rcases hr with rfl | rfl | rfl
      · exact hd
      · exact hu1
      · exact hu2
  · rw [main [u1, d, u2] (by simp) ?_]
    · simp [List.find?_cons, hdt, hut1]
    · intro r hr
      simp only [List.mem_cons, List.not_mem_nil, or_false] at hr
      rcases hr with rfl | rfl | rfl
      · exact hu1
      · exact hd
      · exact hu2
  · rw [main [u1, u2, d] (by simp) ?_]
    · simp [List.find?_cons, hdt, hut1, hut2]
    · intro r hr
      simp only [List.mem_cons, List.not_mem_nil, or_false] at hr
      rcases hr with rfl | rfl | rfl
      · exact hu1
      · exact hu2
      · exact hd

/-- Witness for `astC10_chooseRelease` on concrete releases. -/
theorem astC10_chooseRelease_w :
    chooseRelease (.list [PyVal.dict [("x", .str "1")],
        PyVal.dict [("date", .str "1999")], PyVal.dict []])
      = .ok (PyVal.dict [("date", .str "1999")])
    ∧ chooseRelease (.list [PyVal.dict [("x", .str "1")], PyVal.dict [],
        PyVal.dict [("date", .str "1999")]])
      = .ok (PyVal.dict [("date", .str "1999")]) := by
  have h := astC10_chooseRelease.2 (PyVal.dict [("date", .str "1999")])
    (PyVal.dict [("x", .str "1")]) (PyVal.dict [])
    ⟨_, rfl⟩ ⟨_, rfl⟩ ⟨_, rfl⟩ rfl rfl rfl
  exact ⟨h.2.1, h.2.2⟩

/-! ## C5 — the year sort -/

/-- A digit character is not whitespace. -/
theorem isWhitespace_eq_false_of_isDigit (c : Char) (h : c.isDigit = true) :
    c.isWhitespace = false := by
  have h48 : 48 ≤ c.val ∧ c.val ≤ 57 := by simpa [Char.isDigit] using h
  by_contra hw
  have hw' : c.isWhitespace = true := by
    cases hb : c.isWhitespace
    · exact absurd hb hw
    · rfl
  have h1 := by simpa [Char.isWhitespace] using hw'
  rcases h1 with ((h1 | h1) | h1) | h1 <;>
    (subst h1; exact absurd h48.1 (by decide))

/-- Stripping leaves a non-empty all-digit string unchanged. -/
theorem pyStripS_eq_self_of_digits (cs : List Char) (hne : cs ≠ [])
    (h : cs.all Char.isDigit = true) : pyStripS (String.mk cs) = String.mk cs := by
  have hall : ∀ c ∈ cs, c.isWhitespace = false := by
    intro c hc
    exact isWhitespace_eq_false_of_isDigit c (by
      have := List.all_eq_true.mp h c hc
      simpa using this)
  have h1 : cs.dropWhile Char.isWhitespace = cs := by
    cases cs with
    | nil => rfl
    | cons c rest =>
      rw [List.dropWhile_cons, if_neg]
      simp [hall c (by simp)]
  have h2 : cs.reverse.dropWhile Char.isWhitespace = cs.reverse := by
    cases hrev : cs.reverse with
    | nil => rfl
    | cons d ds =>
      have hd : d ∈ cs := by
        have : d ∈ cs.reverse := by rw [hrev]; simp
        simpa using this
      rw [List.dropWhile_cons, if_neg]
      simp [hall d hd]
  unfold pyStripS
  simp only [h1, h2, List.reverse_reverse]

/-- `int()` of a non-empty all-digit string. -/
theorem pyIntParse_digits (cs : List Char) (hne : cs ≠ [])
    (h : cs.all Char.isDigit = true) :
    pyIntParse (String.mk cs) = .ok (Int.ofNat (digitsToNat cs)) := by
  unfold pyIntParse
  rw [pyStripS_eq_self_of_digits cs hne h]
  cases cs with
  | nil => exact absurd rfl hne
  | cons c rest =>
    have hc : c.isDigit = true := by
      have := List.all_eq_true.mp h c (by simp)
      simpa using this
    have hcm : ¬(c = '-') := fun he => by subst he; simp [Char.isDigit] at hc
    have hcp : ¬(c = '+') := fun he => by subst he; simp [Char.isDigit] at hc
    simp only [String.data]  -- (String.mk (c :: rest)).data = c :: rest
    rw [if_neg hcm, if_neg hcp]
    rw [if_pos ⟨by simp, h⟩]
    simp [Int.one_mul]

/-- The sort key of `_on_metadata_fetched` on a record whose `year` value is
a whitespace-free string: the integer value of the first 4 characters when
the year is purely numeric, else the sentinel 9999. -/
theorem yearSortKeyE_of_plain (kvs : List (String × PyVal)) (y : String)
    (hy : kvs.lookup "year" = some (.str y)) (hstrip : pyStripS y = y) :
    yearSortKeyE (.dict kvs)
      = .ok (if pyStrIsdigit y then Int.ofNat (digitsToNat (y.data.take 4))
          else 9999) := by
  unfold yearSortKeyE
  rw [show pyGetD (.dict kvs) "year" (.str "") = .ok (.str y) by
    simp [pyGetD, hy]]
  rw [exOk_bind]
  show (Except.ok y >>= fun s => _) = _
  rw [exOk_bind, hstrip]
  by_cases hd : pyStrIsdigit y = true
  · rw [if_pos hd, if_pos hd]
    rw [show pyGetD (.dict kvs) "year" (.str "9999") = .ok (.str y) by
      simp [pyGetD, hy]]
    rw [exOk_bind]
    rw [show pySlice4 (.str y) = .ok (.str (String.mk (y.data.take 4))) from
      rfl]
    rw [exOk_bind]
    show pyIntParse (String.mk (y.data.take 4)) = _
    have hyprop : ¬ y = "" ∧ ∀ x ∈ y.data, x.isDigit = true := by
      simpa [pyStrIsdigit] using hd
    have hyne : y.data ≠ [] := by
      intro hh
      apply hyprop.1
      cases y with
      | mk d =>
        simp only [String.data] at hh
        rw [hh]
    refine pyIntParse_digits _ ?_ ?_
    · simp [List.take_eq_nil_iff, hyne]
    · rw [List.all_eq_true]
      intro c hc
      exact hyprop.2 c (List.take_subset 4 y.data hc)
  · rw [if_neg hd, if_neg hd]

/-- Stability of one ordered insertion, expressed through key filtering. -/
theorem filter_orderedInsert_key (a : PyVal × Int) (l : List (PyVal × Int))
    (k : Int) :
    (List.orderedInsert pairLe a l).filter (fun p => p.2 == k)
      = if a.2 = k then a :: l.filter (fun p => p.2 == k)
        else l.filter (fun p => p.2 == k) := by
  induction l with
  | nil =>
    by_cases h : a.2 = k <;> simp [List.orderedInsert, List.filter_cons, h]
  | cons b t ih =>
    by_cases hr : pairLe a b
    · by_cases h : a.2 = k <;>
        simp [List.orderedInsert, hr, List.filter_cons, h]
    · have hlt : b.2 < a.2 := lt_of_not_le hr
      by_cases h : a.2 = k
      · have hbk : (b.2 == k) = false := by
          subst h
          exact beq_eq_false_iff_ne.mpr (ne_of_lt hlt)
        simp [List.orderedInsert, hr, List.filter_cons, hbk, ih, h]
      · by_cases hbk : b.2 = k <;>
          simp [List.orderedInsert, hr, List.filter_cons, hbk, ih, h]

/-- Stability of the whole sort: the subsequence of records with a fixed
key is unchanged. -/
theorem filter_sortPairs_key (l : List (PyVal × Int)) (k : Int) :
    (sortPairs l).filter (fun p => p.2 == k) = l.filter (fun p => p.2 == k) := by
  induction l with
  | nil => rfl
  | cons a t ih =>
    show (List.orderedInsert pairLe a (List.insertionSort pairLe t)).filter _
      = _
    rw [filter_orderedInsert_key]
    have ih' : List.filter (fun p => p.2 == k) (List.insertionSort pairLe t)
        = List.filter (fun p => p.2 == k) t := ih
    by_cases h : a.2 = k <;> simp [List.filter_cons, h, ih']

theorem sortOptions_pairs_fst (l : List PyVal) (pairs : List (PyVal × Int))
    (h : exMapM (fun x => do
        let k ← yearSortKeyE x
        pure (x, k)) l = .ok pairs) :
    pairs.map Prod.fst = l := by
  induction l generalizing pairs with
  | nil =>
    cases h
    rfl
  | cons x xs ih =>
    unfold exMapM at h
    cases hk : yearSortKeyE x with
    | error e => rw [hk] at h; simp [exErr_bind, exOk_bind] at h
    | ok k =>
      rw [hk] at h
      cases hrest : exMapM (fun x => do
          let k ← yearSortKeyE x
          pure (x, k)) xs with
      | error e =>
        rw [hrest] at h
        simp only [exOk_bind, exErr_bind] at h
        exact absurd h (by simp)
      | ok rest =>
        rw [hrest] at h
        simp only [exOk_bind] at h
        have hp := Except.ok.inj h
        subst hp
        simpa using ih rest hrest

/-- Modelled from the claim's words, for comparison with the code's key:
"records ascending by year parsed as an integer, mapping every year string
that is not purely numeric (including the empty string) to the sentinel
9999". -/
def specYearKey (y : String) : Int :=
  if pyStrIsdigit y then Int.ofNat (digitsToNat y.data) else 9999

/-- The claim's key on a record dict. -/
def specRecKey (x : PyVal) : Int :=
  match pyLookup x "year" with
  | some (.str y) => specYearKey y
  | _ => 9999

/-- The claim's sort: stable, ascending by `specRecKey`. -/
def specSortOptions (l : List PyVal) : List PyVal :=
  (List.insertionSort pairLe (l.map (fun x => (x, specRecKey x)))).map
    Prod.fst

/-- C5, counterexample: the year `" 2001"` is not purely numeric, so the
claim maps it to sentinel 9999 and sorts it last; the code strips before
the digit test and then takes `int(" 200") = 200`, so the record sorts
first instead — the code's sort and the claim's sort disagree on this
two-record input. -/
theorem astC5_cex :
    yearSortKeyE (.dict [("year", .str " 2001")]) = .ok 200
    ∧ specYearKey " 2001" = 9999
    ∧ sortOptions [PyVal.dict [("year", .str " 2001")],
        PyVal.dict [("year", .str "1999")]]
      = .ok [PyVal.dict [("year", .str " 2001")],
        PyVal.dict [("year", .str "1999")]]
    ∧ specSortOptions [PyVal.dict [("year", .str " 2001")],
        PyVal.dict [("year", .str "1999")]]
      = [PyVal.dict [("year", .str "1999")],
        PyVal.dict [("year", .str " 2001")]]
    ∧ (200 : Int) ≠ 9999
    ∧ (" 2001" : String) ≠ "1999" :=
  ⟨rfl, rfl, rfl, rfl, by decide, by decide⟩

/-- C5 (amended): the sort key is 9999 for every year string that does not
*strip* to a purely numeric string, and the integer value of the *first 4
characters* otherwise; for whitespace-free year strings this is the claim's
key up to 4-character truncation.  The sort is ascending (pair level),
a permutation of its input, and stable (records with equal keys keep their
input order); the claim's example sorts as stated, the two sentinel records
keeping their relative order. -/
theorem astC5_sort_stable :
    (∀ (kvs : List (String × PyVal)) (y : String),
      kvs.lookup "year" = some (.str y) → pyStripS y = y →
      yearSortKeyE (.dict kvs)
        = .ok (if pyStrIsdigit y then Int.ofNat (digitsToNat (y.data.take 4))
            else 9999))
    ∧ (∀ l : List (PyVal × Int), List.Sorted pairLe (sortPairs l))
    ∧ (∀ l : List (PyVal × Int), (sortPairs l).Perm l)
    ∧ (∀ (l : List (PyVal × Int)) (k : Int),
        (sortPairs l).filter (fun p => p.2 == k)
          = l.filter (fun p => p.2 == k))
    ∧ (∀ (l out : List PyVal), sortOptions l = .ok out → out.Perm l)
    ∧ sortOptions [PyVal.dict [("year", .str "2001"), ("source", .str "a")],
        PyVal.dict [("year", .str ""), ("source", .str "b")],
        PyVal.dict [("year", .str "abcd"), ("source", .str "c")],
        PyVal.dict [("year", .str "1999"), ("source", .str "d")]]
      = .ok [PyVal.dict [("year", .str "1999"), ("source", .str "d")],
        PyVal.dict [("year", .str "2001"), ("source", .str "a")],
        PyVal.dict [("year", .str ""), ("source", .str "b")],
        PyVal.dict [("year", .str "abcd"), ("source", .str "c")]] := by
  refine ⟨yearSortKeyE_of_plain, fun l => List.sorted_insertionSort pairLe l,
    fun l => List.perm_insertionSort pairLe l, filter_sortPairs_key,
    ?_, rfl⟩
  intro l out h
  unfold sortOptions at h
  cases hp : exMapM (fun x => do
      let k ← yearSortKeyE x
      pure (x, k)) l with
  | error e => rw [hp] at h; simp [exErr_bind] at h
  | ok pairs =>
    rw [hp] at h
    simp only [exOk_bind] at h
    have ho := Except.ok.inj h
    subst ho
    have h1 : List.Perm ((sortPairs pairs).map Prod.fst)
        (pairs.map Prod.fst) :=
      (List.perm_insertionSort pairLe pairs).map _
    rw [sortOptions_pairs_fst l pairs hp] at h1
    exact h1

/-- Witness for `astC5_sort_stable` at concrete inputs. -/
theorem astC5_sort_stable_w :
    yearSortKeyE (.dict [("year", .str "20010")]) = .ok 2001
    ∧ ([(PyVal.none, (3 : Int)), (PyVal.none, 1)].filter
          (fun p => p.2 == (1 : Int))
        = [(PyVal.none, (1 : Int))])
    ∧ ∃ out, sortOptions [PyVal.dict [("year", .str "20010")]] = .ok out
        ∧ out.Perm [PyVal.dict [("year", .str "20010")]] := by
  refine ⟨?_, rfl, ?_⟩
  · have h := astC5_sort_stable.1 [("year", .str "20010")] "20010" rfl rfl
    simpa using h
  · exact ⟨_, rfl, astC5_sort_stable.2.2.2.2.1 _ _ rfl⟩

/-! ## Inversion helpers for the provider pipeline -/

theorem bind_ok_inv {e : Except PErr α} {f : α → Except PErr β} {b : β}
    (h : (e >>= f) = .ok b) : ∃ a, e = .ok a ∧ f a = .ok b := by
  cases e with
  | error err => simp [exErr_bind] at h
  | ok a => exact ⟨a, rfl, h⟩

theorem exMapM_mem {f : α → Except PErr β} {l : List α} {ys : List β}
    (h : exMapM f l = .ok ys) : ∀ y ∈ ys, ∃ x ∈ l, f x = .ok y := by
  induction l generalizing ys with
  | nil =>
    cases h
    intro y hy
    simp at hy
  | cons x xs ih =>
    unfold exMapM at h
    obtain ⟨y0, hy0, h⟩ := bind_ok_inv h
    obtain ⟨rest, hrest, h⟩ := bind_ok_inv h
    have hys := Except.ok.inj h
    subst hys
    intro y hy
    rcases List.mem_cons.mp hy with rfl | hy
    · exact ⟨x, by simp, hy0⟩
    · obtain ⟨x', hx', hfx'⟩ := ih hrest y hy
      exact ⟨x', by simp [hx'], hfx'⟩

theorem exMapM_id_of (f : α → Except PErr α) (l : List α)
    (h : ∀ x ∈ l, f x = .ok x) : exMapM f l = .ok l := by
  induction l with
  | nil => rfl
  | cons x xs ih =>
    have hx := h x (by simp)
    have hxs := ih (fun y hy => h y (by simp [hy]))
    unfold exMapM
    rw [hx, exOk_bind, hxs, exOk_bind]

/-- `pyIsdigitV` only succeeds on strings. -/
theorem pyIsdigitV_ok_str {v : PyVal} {b : Bool} (h : pyIsdigitV v = .ok b) :
    ∃ s, v = PyVal.str s := by
  cases v <;> simp [pyIsdigitV] at h <;> exact ⟨_, rfl⟩

/-- `_get_genre` always returns a string on success. -/
theorem getGenre_str {recording g : PyVal}
    (h : getGenre recording = .ok g) : ∃ s, g = PyVal.str s := by
  unfold getGenre at h
  obtain ⟨has, h1, h⟩ := bind_ok_inv h
  cases has with
  | false =>
    simp only [Bool.false_eq_true, if_false] at h
    exact ⟨"", (Except.ok.inj h).symm⟩
  | true =>
    simp only [if_true] at h
    obtain ⟨tl, h2, h⟩ := bind_ok_inv h
    by_cases ht : pyTruthy tl = true
    · rw [if_pos ht] at h
      obtain ⟨tags, h3, h⟩ := bind_ok_inv h
      obtain ⟨names, h4, h⟩ := bind_ok_inv h
      obtain ⟨s, h5, h⟩ := bind_ok_inv h
      exact ⟨s, (Except.ok.inj h).symm⟩
    · rw [if_neg ht] at h
      exact ⟨"", (Except.ok.inj h).symm⟩
/-- The `year` computed by `griYear` is always a string. -/
theorem griYear_str {dateStr y : PyVal} (h : griYear dateStr = .ok y) :
    ∃ s, y = PyVal.str s := by
  unfold griYear at h
  obtain ⟨n, h1, h⟩ := bind_ok_inv h
  by_cases hn : n ≥ 4
  · rw [if_pos hn] at h
    obtain ⟨d4, h2, h⟩ := bind_ok_inv h
    obtain ⟨isd, h3, h⟩ := bind_ok_inv h
    obtain ⟨s, rfl⟩ := pyIsdigitV_ok_str h3
    cases isd with
    | true =>
      simp only [if_true] at h
      exact ⟨s, (Except.ok.inj h).symm⟩
    | false =>
      simp only [Bool.false_eq_true, if_false] at h
      exact ⟨"", (Except.ok.inj h).symm⟩
  · rw [if_neg hn] at h
    exact ⟨"", (Except.ok.inj h).symm⟩

/-- The `year` extracted by `_get_release_info` is always a string. -/
theorem getReleaseInfo_year_str {env : MBEnv} {recording : PyVal}
    {cache : Cache} {album year track : PyVal} {cache' : Cache}
    (h : getReleaseInfo env recording cache
      = .ok ((album, year, track), cache')) :
    ∃ s, year = PyVal.str s := by
  unfold getReleaseInfo at h
  obtain ⟨hasRL, h1, h⟩ := bind_ok_inv h
  cases hasRL with
  | false =>
    simp only [Bool.false_eq_true, if_false] at h
    have hy : PyVal.str "" = year := by
      simpa using congrArg (fun p => p.1.2.1) (Except.ok.inj h)
    exact ⟨"", hy.symm⟩
  | true =>
    simp only [if_true] at h
    obtain ⟨rl, h2, h⟩ := bind_ok_inv h
    by_cases ht : pyTruthy rl = true
    · rw [if_pos ht] at h
      obtain ⟨chosen, h3, h⟩ := bind_ok_inv h
      obtain ⟨alb, h4, h⟩ := bind_ok_inv h
      obtain ⟨dateStr, h5, h⟩ := bind_ok_inv h
      obtain ⟨yv, h6, h⟩ := bind_ok_inv h
      obtain ⟨s, rfl⟩ := griYear_str h6
      obtain ⟨rid, h7, h⟩ := bind_ok_inv h
      by_cases hrt : pyTruthy rid = true
      · rw [if_pos hrt] at h
        obtain ⟨tc, h8, h⟩ := bind_ok_inv h
        obtain ⟨tr, cache2⟩ := tc
        have hy : PyVal.str s = year := by
          simpa using congrArg (fun p => p.1.2.1) (Except.ok.inj h)
        exact ⟨s, hy.symm⟩
      · rw [if_neg hrt] at h
        have hy : PyVal.str s = year := by
          simpa using congrArg (fun p => p.1.2.1) (Except.ok.inj h)
        exact ⟨s, hy.symm⟩
    · rw [if_neg ht] at h
      have hy : PyVal.str "" = year := by
        simpa using congrArg (fun p => p.1.2.1) (Except.ok.inj h)
      exact ⟨"", hy.symm⟩

/-- Every record built by `_process_recording` has the literal MusicBrainz
shape: string artist and source, string year and genre, and a
`cover_url` of `None`. -/
theorem processRecording_shape {env : MBEnv} {artist : String}
    {recording : PyVal} {cache : Cache} {out : PyVal} {cache' : Cache}
    (h : processRecording env artist recording cache = .ok (out, cache')) :
    ∃ ttl alb ys tr gs rid,
      out = PyVal.dict [("title", ttl), ("artist", .str artist),
        ("album", alb), ("year", PyVal.str ys), ("track", tr),
        ("genre", PyVal.str gs), ("source", .str "MusicBrainz"),
        ("release_id", rid), ("cover_url", PyVal.none)] := by
  unfold processRecording at h
  obtain ⟨x1, hx1, h⟩ := bind_ok_inv h
  obtain ⟨⟨album, year, track⟩, cache1⟩ := x1
  obtain ⟨rec2, hrec2, h⟩ := bind_ok_inv h
  obtain ⟨genre, hg, h⟩ := bind_ok_inv h
  obtain ⟨releaseId, hrid, h⟩ := bind_ok_inv h
  obtain ⟨ttl, httl, h⟩ := bind_ok_inv h
  obtain ⟨ys, rfl⟩ := getReleaseInfo_year_str hx1
  obtain ⟨gs, rfl⟩ := getGenre_str hg
  refine ⟨ttl, album, ys, track, gs, releaseId, ?_⟩
  have hout := congrArg Prod.fst (Except.ok.inj h)
  simpa using hout.symm

/-- Shape propagation through the recording-list comprehension. -/
theorem processAll_shape {env : MBEnv} {artist : String} {recs : List PyVal}
    {cache : Cache} {outs : List PyVal} {cache' : Cache}
    (h : processAll env artist recs cache = .ok (outs, cache')) :
    ∀ r ∈ outs, ∃ ttl alb ys tr gs rid,
      r = PyVal.dict [("title", ttl), ("artist", .str artist),
        ("album", alb), ("year", PyVal.str ys), ("track", tr),
        ("genre", PyVal.str gs), ("source", .str "MusicBrainz"),
        ("release_id", rid), ("cover_url", PyVal.none)] := by
  induction recs generalizing cache outs cache' with
  | nil =>
    cases h
    intro r hr
    simp at hr
  | cons x xs ih =>
    unfold processAll at h
    obtain ⟨p1, hp1, h⟩ := bind_ok_inv h
    obtain ⟨r1, cache1⟩ := p1
    obtain ⟨p2, hp2, h⟩ := bind_ok_inv h
    obtain ⟨rs, cache2⟩ := p2
    have houts : r1 :: rs = outs := by
      simpa using congrArg Prod.fst (Except.ok.inj h)
    subst houts
    intro r hr
    rcases List.mem_cons.mp hr with rfl | hr
    · exact processRecording_shape hp1
    · exact ih hp2 r hr

/-- Every record returned by `fetch_song_metadata` has the MusicBrainz
record shape. -/
theorem fetchSongMetadata_shape {env : MBEnv} {artist title : String}
    {l : List PyVal} (h : fetchSongMetadata env artist title = .ok l) :
    ∀ r ∈ l, ∃ ttl alb ys tr gs rid,
      r = PyVal.dict [("title", ttl), ("artist", .str artist),
        ("album", alb), ("year", PyVal.str ys), ("track", tr),
        ("genre", PyVal.str gs), ("source", .str "MusicBrainz"),
        ("release_id", rid), ("cover_url", PyVal.none)] := by
  unfold fetchSongMetadata at h
  cases hs : env.searchRecordings with
  | error u =>
    rw [hs] at h
    cases h
    intro r hr
    simp at hr
  | ok result =>
    rw [hs] at h
    obtain ⟨rl, h1, h⟩ := bind_ok_inv h
    by_cases ht : pyTruthy rl = true
    · rw [if_pos ht] at h
      obtain ⟨recs, h2, h⟩ := bind_ok_inv h
      obtain ⟨out, h3, h⟩ := bind_ok_inv h
      obtain ⟨outs, cacheF⟩ := out
      have hl : outs = l := by simpa using Except.ok.inj h
      subst hl
      exact processAll_shape h3
    · rw [if_neg ht] at h
      cases h
      intro r hr
      simp at hr

theorem lookup_some_any {kvs : List (String × PyVal)} {k : String}
    {v : PyVal} (h : kvs.lookup k = some v) :
    kvs.any (fun p => p.1 == k) = true := by
  induction kvs with
  | nil => simp [List.lookup] at h
  | cons p rest ih =>
    obtain ⟨a, b⟩ := p
    by_cases hk : a = k
    · simp [List.any_cons, hk]
    · have hb : (k == a) = false := beq_eq_false_iff_ne.mpr (Ne.symm hk)
      rw [List.lookup] at h
      rw [hb] at h
      have hb2 : (a == k) = false := beq_eq_false_iff_ne.mpr hk
      simp [List.any_cons, hb2, ih h]

/-- With `use_public_apis = False` no cover lookup happens: the record is
returned untouched (`self.public_apis` is `None`). -/
theorem enrichRecord_false (env : FetchEnv) (kvs : List (String × PyVal)) :
    enrichRecord env false (.dict kvs) = .ok (.dict kvs) := by
  unfold enrichRecord
  rw [show pyInKey "release_id" (.dict kvs)
    = .ok (kvs.any (fun p => p.1 == "release_id")) from rfl, exOk_bind]
  simp

/-- With `use_public_apis = True` the cover lookup runs on the record's
`release_id` and, when the URL is truthy, rewrites `cover_url` and
`source`. -/
theorem enrichRecord_true (env : FetchEnv) (kvs : List (String × PyVal))
    (rid : PyVal) (h : kvs.lookup "release_id" = some rid) :
    enrichRecord env true (.dict kvs)
      = .ok (if pyTruthy (searchCoverArt env rid) = true then
          PyVal.dict (kvSet (kvSet kvs "cover_url" (searchCoverArt env rid))
            "source" (.str "MusicBrainz (with cover)"))
        else PyVal.dict kvs) := by
  unfold enrichRecord
  rw [show pyInKey "release_id" (.dict kvs)
    = .ok (kvs.any (fun p => p.1 == "release_id")) from rfl, exOk_bind]
  rw [lookup_some_any h]
  rw [show pyIndexKey (.dict kvs) "release_id" = .ok rid by
    simp [pyIndexKey, h]]
  simp only [Bool.and_self, if_true, exOk_bind]
  by_cases hc : pyTruthy (searchCoverArt env rid) = true
  · rw [if_pos hc, if_pos hc]
    rfl
  · rw [if_neg hc, if_neg hc]

/-! ## Concrete provider environments used as counterexamples -/

/-- A well-formed MusicBrainz search response whose only recording carries a
tag entry without a `name` key — a malformed payload for `_get_genre`. -/
def envBadPayload : MBEnv where
  searchRecordings := .ok (.dict [("recording-list",
    .list [.dict [("tag-list", .list [.dict []])]])])
  getRecordingById := fun _ => .error ()
  getReleaseById := fun _ => .error ()

/-- A MusicBrainz client whose every call raises `WebServiceError`. -/
def envDown : MBEnv where
  searchRecordings := .error ()
  getRecordingById := fun _ => .error ()
  getReleaseById := fun _ => .error ()

/-- One fully-populated MusicBrainz recording. -/
def recDemo : PyVal := .dict [("id", .str "r1"), ("title", .str "Song T"),
  ("tag-list", .list [.dict [("name", .str "rock")]]),
  ("release-list", .list [.dict [("id", .str "rel1"), ("title", .str "Alb"),
    ("date", .str "1975-10-31")]])]

/-- The cover-art archive response carrying one front image. -/
def coverDemoResp : HttpResp where
  status := 200
  jsonBody := .ok (.dict [("images", .list [.dict [("front", .bool true),
    ("image", .str "http://cov")]])])

/-- An environment where MusicBrainz returns `recDemo`, the secondary APIs
return nothing, and the cover-art archive has a front image for every
release id. -/
def envCoverDemo : FetchEnv where
  mb := { searchRecordings := .ok (.dict [("recording-list",
            .list [recDemo])]),
          getRecordingById := fun _ => .error (),
          getReleaseById := fun _ => .error () }
  audiodbResp := .ok { status := 404, jsonBody := .error () }
  deezerResp := .ok { status := 404, jsonBody := .error () }
  lrcatResp := .ok { status := 200, jsonBody := .error () }
  coverResp := fun _ => .ok coverDemoResp

/-- The record `fetch_song_metadata` builds from `recDemo` for artist
`"Queen"`. -/
def mbDemoRecord : PyVal := .dict [("title", .str "Song T"),
  ("artist", .str "Queen"), ("album", .str "Alb"), ("year", .str "1975"),
  ("track", .str ""), ("genre", .str "rock"),
  ("source", .str "MusicBrainz"), ("release_id", .str "rel1"),
  ("cover_url", .none)]

/-- `mbDemoRecord` after cover enrichment. -/
def mbDemoEnriched : PyVal := .dict [("title", .str "Song T"),
  ("artist", .str "Queen"), ("album", .str "Alb"), ("year", .str "1975"),
  ("track", .str ""), ("genre", .str "rock"),
  ("source", .str "MusicBrainz (with cover)"), ("release_id", .str "rel1"),
  ("cover_url", .str "http://cov")]

/-- An environment where every provider has nothing except the lyrics
endpoint, which answers 200. -/
def envNoResults : FetchEnv where
  mb := { searchRecordings := .ok (.dict []),
          getRecordingById := fun _ => .error (),
          getReleaseById := fun _ => .error () }
  audiodbResp := .ok { status := 404, jsonBody := .error () }
  deezerResp := .ok { status := 404, jsonBody := .error () }
  lrcatResp := .ok { status := 200, jsonBody := .error () }
  coverResp := fun _ => .error ()

/-- A successful lyrics lookup yields exactly one record: the query's
artist/title with every other core field empty and a boolean
`has_lyrics` flag. -/
theorem searchLrcat_mem_shape (a t : String) (resp : Except Unit HttpResp)
    (r : PyVal) (hr : r ∈ searchLrcat a t resp) :
    searchLrcat a t resp = [r]
    ∧ r = PyVal.dict [("title", .str t), ("artist", .str a),
        ("album", .str ""), ("year", .str ""), ("track", .str ""),
        ("genre", .str ""), ("source", .str "Lyrics.ovh"),
        ("has_lyrics", .bool true)] := by
  cases resp with
  | error u =>
    simp [searchLrcat, searchLrcatE, liftResp, exErr_bind] at hr
  | ok rsp =>
    by_cases hst : (rsp.status == 200) = true
    · have hst' : rsp.status = 200 := by simpa using hst
      have he : searchLrcat a t (.ok rsp)
          = [PyVal.dict [("title", .str t), ("artist", .str a),
              ("album", .str ""), ("year", .str ""), ("track", .str ""),
              ("genre", .str ""), ("source", .str "Lyrics.ovh"),
              ("has_lyrics", .bool true)]] := by
        simp [searchLrcat, searchLrcatE, liftResp, exOk_bind, hst']
      rw [he] at hr
      rcases List.mem_singleton.mp hr with rfl
      exact ⟨he, rfl⟩
    · have hst' : ¬ (rsp.status = 200) := by simpa using hst
      have he : searchLrcat a t (.ok rsp) = [] := by
        simp [searchLrcat, searchLrcatE, liftResp, exOk_bind, hst']
      rw [he] at hr
      simp at hr

/-! ## C3 — error swallowing at the adapter boundary -/

/-- C3, counterexample: a transport-level success whose payload is
well-formed JSON but misses the `name` key inside a recording's tag list
makes `fetch_song_metadata` raise `KeyError` to its caller — the primary
adapter's Search does not catch malformed-payload errors. -/
theorem astC3_cex :
    fetchSongMetadata envBadPayload "a" "t" = .error .keyError := rfl

/-- C3 (amended): the three secondary adapters and the cover lookup catch
every exception of their body and yield the empty result; the primary
adapter catches only the provider's `WebServiceError` on search (yielding
`[]`), while a malformed payload raises to the caller. -/
theorem astC3_adapter_errors :
    (∀ (a t : String) (resp : Except Unit HttpResp) (e : PErr),
      searchAudiodbE a t resp = .error e → searchAudiodb a t resp = [])
    ∧ (∀ (a t : String) (resp : Except Unit HttpResp) (e : PErr),
      searchDeezerE a t resp = .error e → searchDeezer a t resp = [])
    ∧ (∀ (a t : String) (resp : Except Unit HttpResp) (e : PErr),
      searchLrcatE a t resp = .error e → searchLrcat a t resp = [])
    ∧ (∀ (env : FetchEnv) (rid : PyVal) (e : PErr),
      searchCoverArtE env rid = .error e → searchCoverArt env rid = .none)
    ∧ (∀ (env : MBEnv) (a t : String) (u : Unit),
      env.searchRecordings = .error u → fetchSongMetadata env a t = .ok [])
    ∧ fetchSongMetadata envBadPayload "a" "t" = .error .keyError := by
  refine ⟨?_, ?_, ?_, ?_, ?_, rfl⟩
  · intro a t resp e h
    simp [searchAudiodb, h]
  · intro a t resp e h
    simp [searchDeezer, h]
  · intro a t resp e h
    simp [searchLrcat, h]
  · intro env rid e h
    simp [searchCoverArt, h]
  · intro env a t u h
    simp [fetchSongMetadata, h]

/-- Witness for `astC3_adapter_errors` on concrete failing responses. -/
theorem astC3_adapter_errors_w :
    searchAudiodb "a" "t" (.error ()) = []
    ∧ searchDeezer "a" "t" (.error ()) = []
    ∧ searchLrcat "a" "t" (.error ()) = []
    ∧ fetchSongMetadata envDown "a" "t" = .ok [] :=
  ⟨astC3_adapter_errors.1 "a" "t" (.error ()) .transportError rfl,
    astC3_adapter_errors.2.1 "a" "t" (.error ()) .transportError rfl,
    astC3_adapter_errors.2.2.1 "a" "t" (.error ()) .transportError rfl,
    astC3_adapter_errors.2.2.2.2.1 envDown "a" "t" () rfl⟩

/-! ## C2 — cover enrichment is gated by the public-APIs flag -/

/-- C2, counterexample: with `use_public_apis = False` the fetched primary
record keeps `source = "MusicBrainz"` and `cover_url = None` even though
the cover-art archive has a URL for its release id; the identical run with
the flag on does enrich — so enrichment does not happen "regardless of the
useSecondary flag". -/
theorem astC2_cex :
    runFetch envCoverDemo "Queen" "Anthem" false = .ok ([mbDemoRecord], false)
    ∧ pyLookup mbDemoRecord "cover_url" = some PyVal.none
    ∧ pyLookup mbDemoRecord "source" = some (.str "MusicBrainz")
    ∧ searchCoverArt envCoverDemo (.str "rel1") = .str "http://cov"
    ∧ runFetch envCoverDemo "Queen" "Anthem" true
        = .ok ([mbDemoEnriched], false)
    ∧ pyLookup mbDemoEnriched "cover_url" = some (.str "http://cov")
    ∧ pyLookup mbDemoEnriched "source"
        = some (.str "MusicBrainz (with cover)")
    ∧ PyVal.none ≠ PyVal.str "http://cov" :=
  ⟨rfl, rfl, rfl, rfl, rfl, rfl, rfl, fun h => PyVal.noConfusion h⟩

/-- C2 (amended): the public-API client exists only when
`use_public_apis = True`, so with the flag off the aggregator returns the
primary records untouched (no cover lookup at all); with the flag on, every
primary record (each carries the `release_id` key) gets a cover lookup and,
when the URL is truthy, its `cover_url` set and its `source` rewritten to
"MusicBrainz (with cover)". -/
theorem astC2_enrichment_gated :
    (∀ (env : FetchEnv) (a t : String) (mb : List PyVal),
      fetchSongMetadata env.mb a t = .ok mb →
      runFetch env a t false = .ok (mb, false))
    ∧ (∀ (env : FetchEnv) (kvs : List (String × PyVal)),
      enrichRecord env false (.dict kvs) = .ok (.dict kvs))
    ∧ (∀ (env : FetchEnv) (kvs : List (String × PyVal)) (rid : PyVal),
      kvs.lookup "release_id" = some rid →
      enrichRecord env true (.dict kvs)
        = .ok (if pyTruthy (searchCoverArt env rid) = true then
            PyVal.dict (kvSet (kvSet kvs "cover_url"
              (searchCoverArt env rid)) "source"
              (.str "MusicBrainz (with cover)"))
          else PyVal.dict kvs))
    ∧ runFetch envCoverDemo "Queen" "Anthem" true
        = .ok ([mbDemoEnriched], false) := by
  refine ⟨?_, enrichRecord_false, enrichRecord_true, rfl⟩
  intro env a t mb hmb
  unfold runFetch
  rw [hmb, exOk_bind]
  have hmap : exMapM (enrichRecord env false) mb = .ok mb := by
    apply exMapM_id_of
    intro r hr
    obtain ⟨ttl, alb, ys, tr, gs, rid, rfl⟩ := fetchSongMetadata_shape hmb r hr
    exact enrichRecord_false env _
  rw [hmap, exOk_bind]
  rfl

/-- Witness for `astC2_enrichment_gated`: the flag-off aggregator run on
the demo environment returns the unenriched primary record. -/
theorem astC2_enrichment_gated_w :
    runFetch envCoverDemo "Queen" "Anthem" false
      = .ok ([mbDemoRecord], false) :=
  astC2_enrichment_gated.1 envCoverDemo "Queen" "Anthem" [mbDemoRecord] rfl

/-! ## C6 — the lyrics fallback -/

/-- C6: with `useSecondary = true` the lyrics provider is consulted exactly
when the accumulated list after MusicBrainz (cover-enriched), TheAudioDB
and Deezer is empty — the aggregator's queried flag equals that emptiness
test and the lyrics results are appended only then; a successful lyrics
lookup contributes exactly one record whose artist and title equal the
query inputs and whose album, year, track and genre are all empty. -/
theorem astC6_lyrics_fallback (env : FetchEnv) (a t : String)
    (mb : List PyVal)
    (hmb : (fetchSongMetadata env.mb a t
        >>= exMapM (enrichRecord env true)) = .ok mb) :
    (runFetch env a t true
      = .ok (let acc := mb ++ searchAudiodb a t env.audiodbResp
            ++ searchDeezer a t env.deezerResp
          (if acc.isEmpty then acc ++ searchLrcat a t env.lrcatResp else acc,
            acc.isEmpty)))
    ∧ (∀ body : Except Unit PyVal,
        searchLrcat a t (.ok { status := 200, jsonBody := body })
          = [PyVal.dict [("title", .str t), ("artist", .str a),
              ("album", .str ""), ("year", .str ""), ("track", .str ""),
              ("genre", .str ""), ("source", .str "Lyrics.ovh"),
              ("has_lyrics", .bool true)]])
    ∧ (∀ (resp : Except Unit HttpResp) (r : PyVal),
        r ∈ searchLrcat a t resp →
        searchLrcat a t resp = [r]
        ∧ pyLookup r "artist" = some (.str a)
        ∧ pyLookup r "title" = some (.str t)
        ∧ pyLookup r "album" = some (.str "")
        ∧ pyLookup r "year" = some (.str "")
        ∧ pyLookup r "track" = some (.str "")
        ∧ pyLookup r "genre" = some (.str "")) := by
  refine ⟨?_, ?_, ?_⟩
  · obtain ⟨mbRaw, hfetch, hmap⟩ := bind_ok_inv hmb
    unfold runFetch
    rw [hfetch, exOk_bind, hmap, exOk_bind]
    rfl
  · intro body
    rfl
  · intro resp r hr
    obtain ⟨hsingle, rfl⟩ := searchLrcat_mem_shape a t resp r hr
    exact ⟨hsingle, rfl, rfl, rfl, rfl, rfl, rfl⟩

/-- Witness for `astC6_lyrics_fallback`: a run where every other provider
returns nothing falls back to the single lyrics record. -/
theorem astC6_lyrics_fallback_w :
    runFetch envNoResults "Art" "Tit" true
      = .ok ([PyVal.dict [("title", .str "Tit"), ("artist", .str "Art"),
          ("album", .str ""), ("year", .str ""), ("track", .str ""),
          ("genre", .str ""), ("source", .str "Lyrics.ovh"),
          ("has_lyrics", .bool true)]], true) := by
  have h := (astC6_lyrics_fallback envNoResults "Art" "Tit" [] rfl).1
  exact h

/-! ## C4 — record field shapes -/

/-- Every TheAudioDB record has the literal eight-key shape with a string
year and string source. -/
theorem searchAudiodb_mem_shape (a t : String) (resp : Except Unit HttpResp)
    (r : PyVal) (hr : r ∈ searchAudiodb a t resp) :
    ∃ ttl art alb ys tr g cov,
      r = PyVal.dict [("title", ttl), ("artist", art), ("album", alb),
        ("year", PyVal.str ys), ("track", tr), ("genre", g),
        ("cover_url", cov), ("source", PyVal.str "TheAudioDB")] := by
  unfold searchAudiodb at hr
  cases hE : searchAudiodbE a t resp with
  | error e =>
    rw [hE] at hr
    simp at hr
  | ok l =>
    rw [hE] at hr
    unfold searchAudiodbE at hE
    obtain ⟨rsp, h1, hE⟩ := bind_ok_inv hE
    by_cases hst : (rsp.status == 200) = true
    · rw [if_pos hst] at hE
      obtain ⟨data, h2, hE⟩ := bind_ok_inv hE
      obtain ⟨tracks, h3, hE⟩ := bind_ok_inv hE
      obtain ⟨ts, h3b, hE⟩ := bind_ok_inv hE
      obtain ⟨results, h4, hE⟩ := bind_ok_inv hE
      have hl : results = l := Except.ok.inj hE
      subst hl
      obtain ⟨track, htr, hf⟩ := exMapM_mem h4 r hr
      obtain ⟨rd, g1, hf⟩ := bind_ok_inv hf
      obtain ⟨titleV, g2, hf⟩ := bind_ok_inv hf
      obtain ⟨artistV, g3, hf⟩ := bind_ok_inv hf
      obtain ⟨albumV, g4, hf⟩ := bind_ok_inv hf
      obtain ⟨trackV, g5, hf⟩ := bind_ok_inv hf
      obtain ⟨genreV, g6, hf⟩ := bind_ok_inv hf
      obtain ⟨thumbT, g7, hf⟩ := bind_ok_inv hf
      obtain ⟨thumbA, g8, hf⟩ := bind_ok_inv hf
      exact ⟨titleV, artistV, albumV, _, trackV, genreV, pyOr thumbT thumbA,
        (Except.ok.inj hf).symm⟩
    · rw [if_neg hst] at hE
      have hl : ([] : List PyVal) = l := Except.ok.inj hE
      rw [← hl] at hr
      simp at hr

/-- Every Deezer record has the literal eight-key shape with a string track
(via `str(...)`), an always-empty string genre, and a string source. -/
theorem searchDeezer_mem_shape (a t : String) (resp : Except Unit HttpResp)
    (r : PyVal) (hr : r ∈ searchDeezer a t resp) :
    ∃ ttl art alb yv tr cov,
      r = PyVal.dict [("title", ttl), ("artist", art), ("album", alb),
        ("year", yv), ("track", PyVal.str tr), ("genre", PyVal.str ""),
        ("cover_url", cov), ("source", PyVal.str "Deezer")] := by
  unfold searchDeezer at hr
  cases hE : searchDeezerE a t resp with
  | error e =>
    rw [hE] at hr
    simp at hr
  | ok l =>
    rw [hE] at hr
    unfold searchDeezerE at hE
    obtain ⟨rsp, h1, hE⟩ := bind_ok_inv hE
    by_cases hst : (rsp.status == 200) = true
    · rw [if_pos hst] at hE
      obtain ⟨data, h2, hE⟩ := bind_ok_inv hE
      obtain ⟨ts, h3, hE⟩ := bind_ok_inv hE
      obtain ⟨results, h4, hE⟩ := bind_ok_inv hE
      have hl : results = l := Except.ok.inj hE
      subst hl
      obtain ⟨track, htr, hf⟩ := exMapM_mem h4 r hr
      obtain ⟨album, g1, hf⟩ := bind_ok_inv hf
      obtain ⟨rd, g2, hf⟩ := bind_ok_inv hf
      obtain ⟨yv, g3, hf⟩ := bind_ok_inv hf
      obtain ⟨titleV, g4, hf⟩ := bind_ok_inv hf
      obtain ⟨artistObj, g5, hf⟩ := bind_ok_inv hf
      obtain ⟨artistV, g6, hf⟩ := bind_ok_inv hf
      obtain ⟨albumV, g7, hf⟩ := bind_ok_inv hf
      obtain ⟨posV, g8, hf⟩ := bind_ok_inv hf
      obtain ⟨coverM, g9, hf⟩ := bind_ok_inv hf
      obtain ⟨coverD, g10, hf⟩ := bind_ok_inv hf
      exact ⟨titleV, artistV, albumV, yv, pyStr posV, pyOr coverM coverD,
        (Except.ok.inj hf).symm⟩
    · rw [if_neg hst] at hE
      have hl : ([] : List PyVal) = l := Except.ok.inj hE
      rw [← hl] at hr
      simp at hr

/-- C4, counterexample: a MusicBrainz record carries `cover_url = None` (a
distinct missing marker, not the empty string) and a Lyrics.ovh record
carries the non-string flag `has_lyrics = True`, so records are not
all-plain-string dictionaries. -/
theorem astC4_cex :
    fetchSongMetadata envCoverDemo.mb "Queen" "Anthem" = .ok [mbDemoRecord]
    ∧ pyLookup mbDemoRecord "cover_url" = some PyVal.none
    ∧ PyVal.none ≠ PyVal.str ""
    ∧ searchLrcat "Art" "Tit" (.ok { status := 200, jsonBody := .error () })
        = [PyVal.dict [("title", .str "Tit"), ("artist", .str "Art"),
            ("album", .str ""), ("year", .str ""), ("track", .str ""),
            ("genre", .str ""), ("source", .str "Lyrics.ovh"),
            ("has_lyrics", .bool true)]]
    ∧ pyLookup (PyVal.dict [("title", .str "Tit"), ("artist", .str "Art"),
        ("album", .str ""), ("year", .str ""), ("track", .str ""),
        ("genre", .str ""), ("source", .str "Lyrics.ovh"),
        ("has_lyrics", .bool true)]) "has_lyrics" = some (.bool true)
    ∧ PyVal.bool true ≠ PyVal.str "True" :=
  ⟨rfl, rfl, fun h => PyVal.noConfusion h, rfl, rfl,
    fun h => PyVal.noConfusion h⟩

/-- C4 (amended): the fields the adapters synthesize themselves are plain
strings (with `""` for absence): a MusicBrainz record always has a string
artist, year, genre and source, plus `release_id` and a `cover_url` of
`None`; a Lyrics.ovh record is exactly the literal record with empty-string
album/year/track/genre and a boolean `has_lyrics = True`; TheAudioDB
records have string year and source; Deezer records have string track,
empty-string genre and string source.  Fields copied from provider
payloads (title, album, track numbers, cover URLs, ids) are passed through
unvalidated. -/
theorem astC4_record_fields :
    (∀ (env : MBEnv) (artist title : String) (l : List PyVal),
      fetchSongMetadata env artist title = .ok l →
      ∀ r ∈ l, ∃ ttl alb ys tr gs rid,
        r = PyVal.dict [("title", ttl), ("artist", .str artist),
          ("album", alb), ("year", PyVal.str ys), ("track", tr),
          ("genre", PyVal.str gs), ("source", .str "MusicBrainz"),
          ("release_id", rid), ("cover_url", PyVal.none)])
    ∧ (∀ (a t : String) (resp : Except Unit HttpResp) (r : PyVal),
      r ∈ searchLrcat a t resp →
      r = PyVal.dict [("title", .str t), ("artist", .str a),
        ("album", .str ""), ("year", .str ""), ("track", .str ""),
        ("genre", .str ""), ("source", .str "Lyrics.ovh"),
        ("has_lyrics", .bool true)])
    ∧ (∀ (a t : String) (resp : Except Unit HttpResp) (r : PyVal),
      r ∈ searchAudiodb a t resp →
      ∃ ttl art alb ys tr g cov,
        r = PyVal.dict [("title", ttl), ("artist", art), ("album", alb),
          ("year", PyVal.str ys), ("track", tr), ("genre", g),
          ("cover_url", cov), ("source", PyVal.str "TheAudioDB")])
    ∧ (∀ (a t : String) (resp : Except Unit HttpResp) (r : PyVal),
      r ∈ searchDeezer a t resp →
      ∃ ttl art alb yv tr cov,
        r = PyVal.dict [("title", ttl), ("artist", art), ("album", alb),
          ("year", yv), ("track", PyVal.str tr), ("genre", PyVal.str ""),
          ("cover_url", cov), ("source", PyVal.str "Deezer")]) :=
  ⟨fun _ _ _ _ h => fetchSongMetadata_shape h,
    fun a t resp r hr => (searchLrcat_mem_shape a t resp r hr).2,
    searchAudiodb_mem_shape, searchDeezer_mem_shape⟩

/-- Witness for `astC4_record_fields` on concrete records. -/
theorem astC4_record_fields_w :
    (∃ ttl alb ys tr gs rid,
      mbDemoRecord = PyVal.dict [("title", ttl), ("artist", .str "Queen"),
        ("album", alb), ("year", PyVal.str ys), ("track", tr),
        ("genre", PyVal.str gs), ("source", .str "MusicBrainz"),
        ("release_id", rid), ("cover_url", PyVal.none)])
    ∧ (PyVal.dict [("title", .str "Tit"), ("artist", .str "Art"),
        ("album", .str ""), ("year", .str ""), ("track", .str ""),
        ("genre", .str ""), ("source", .str "Lyrics.ovh"),
        ("has_lyrics", .bool true)]
      = PyVal.dict [("title", .str "Tit"), ("artist", .str "Art"),
        ("album", .str ""), ("year", .str ""), ("track", .str ""),
        ("genre", .str ""), ("source", .str "Lyrics.ovh"),
        ("has_lyrics", .bool true)]) := by
  refine ⟨?_, ?_⟩
  · exact astC4_record_fields.1 envCoverDemo.mb "Queen" "Anthem"
      [mbDemoRecord] rfl mbDemoRecord (List.mem_singleton.mpr rfl)
  · exact astC4_record_fields.2.1 "Art" "Tit"
      (.ok { status := 200, jsonBody := .error () }) _
      (List.mem_singleton.mpr rfl)

end AST
